import Mathlib

/-!
Verification of the telemetry-stream / shadow-line core of the repository.

The TypeScript sources `src/services/TelemetryStreamService.ts` (stream
connection manager, message normalizer, kinematics estimator) and
`src/services/gpsService.ts` (ShadowLineEngineCore) are shallowly embedded
below.  JavaScript numbers are modelled as `JNum`: either `nan` or an exact
rational.  This captures the NaN-propagation and NaN-comparison semantics
the decoders rely on (`NaN < 2` is `false`, `NaN ?? x` keeps `NaN`, and
`Math.min`/`Math.max` propagate `NaN`).  Floating-point rounding and the
infinities are idealized away: numeric literals are exact rationals, and no
modelled code path divides by zero (`JNum.div` adopts Lean's `q / 0 = 0`
convention for the unreachable case).  Impure ingredients (`Date.now()`,
`Date` string parsing) are passed in as explicit parameters.
-/

/-- A JavaScript number: `nan`, or a finite value idealized as an exact
rational.  (Infinities cannot arrive through `JSON.parse` and are outside
the modelled input space.) -/
inductive JNum where
  | nan : JNum
  | val (q : ℚ) : JNum
deriving DecidableEq, Repr, Inhabited

namespace JNum

/-- JS addition: `NaN` propagates. -/
def add : JNum → JNum → JNum
  | val a, val b => val (a + b)
  | _, _ => nan

/-- JS subtraction: `NaN` propagates. -/
def sub : JNum → JNum → JNum
  | val a, val b => val (a - b)
  | _, _ => nan

/-- JS multiplication: `NaN` propagates. -/
def mul : JNum → JNum → JNum
  | val a, val b => val (a * b)
  | _, _ => nan

/-- JS division: `NaN` propagates.  Division by zero yields `Infinity` in
JS; no modelled code path performs it, so the Lean `/ 0 = 0` convention is
kept for that unreachable case. -/
def div : JNum → JNum → JNum
  | val a, val b => val (a / b)
  | _, _ => nan

instance : Add JNum := ⟨add⟩
instance : Sub JNum := ⟨sub⟩
instance : Mul JNum := ⟨mul⟩
instance : Div JNum := ⟨div⟩

instance (n : Nat) : OfNat JNum n := ⟨val n⟩

/-- JS `<`: any comparison involving `NaN` is `false`. -/
def jlt : JNum → JNum → Bool
  | val a, val b => decide (a < b)
  | _, _ => false

/-- JS `<=`: any comparison involving `NaN` is `false`. -/
def jle : JNum → JNum → Bool
  | val a, val b => decide (a ≤ b)
  | _, _ => false

/-- JS `Math.min`: returns `NaN` if either argument is `NaN`. -/
def jmin : JNum → JNum → JNum
  | val a, val b => val (min a b)
  | _, _ => nan

/-- JS `Math.max`: returns `NaN` if either argument is `NaN`. -/
def jmax : JNum → JNum → JNum
  | val a, val b => val (max a b)
  | _, _ => nan

/-- JS `Math.floor`: `NaN` propagates. -/
def jfloor : JNum → JNum
  | val a => val (⌊a⌋ : ℤ)
  | nan => nan

/-- JS `Math.abs`: `NaN` propagates. -/
def jabs : JNum → JNum
  | val a => val |a|
  | nan => nan

/-- `true` exactly for finite values (in JS terms: not `NaN`). -/
def isReal : JNum → Prop
  | val _ => True
  | nan => False

instance : DecidablePred isReal := by
  intro n; cases n <;> simp [isReal] <;> infer_instance

end JNum

namespace Telemetry

/-! ### Stream connection manager (`TelemetryStreamService.ts`)

`ConnectionState`, the Fibonacci backoff generator `fibonacciMs`, and the
recovery scheduling of `TelemetryStreamEngine`.  The generator is a pair
`(a, b)` stepped exactly as `[a, b] = [b, a + b]` after yielding
`min a cap`; delays are in milliseconds and the engine-supplied cap is
30000.  Timer mechanics are not modelled; `scheduleRecovery` returns the
delay it would arm the timer with, or `none` when it transitions to
`dead` instead. -/

/-- Connection state of the stream manager (`ConnectionState` in TS). -/
inductive ConnState where
  | idle | connecting | live | paused | recovering | dead
deriving DecidableEq, Repr

/-- The mutable fields of `TelemetryStreamEngine` relevant to recovery:
connection state, the backoff generator's `(a, b)` pair, and the
consecutive-recovery counter. -/
structure MgrState where
  connState : ConnState
  backoffA : Nat
  backoffB : Nat
  recoveryAttempts : Nat
deriving DecidableEq, Repr

/-- One step of the `fibonacciMs` generator: yield `min a cap`, advance the
pair by `[a, b] = [b, a + b]`. -/
def fibNext (cap a b : Nat) : Nat × Nat × Nat :=
  (min a cap, b, a + b)

/-- A freshly (re)seeded generator: `fibonacciMs` starts with
`a = 1000, b = 1000`.  `connect` and a successful `onopen` both install
this state together with `recoveryAttempts = 0`. -/
def resetBackoff (st : MgrState) : MgrState :=
  { st with backoffA := 1000, backoffB := 1000, recoveryAttempts := 0 }

/-- `TelemetryStreamEngine.scheduleRecovery`: with 10 attempts already
spent it transitions to `dead` and schedules nothing; otherwise it
transitions to `recovering`, spends an attempt, and arms a timer with the
generator's next delay. -/
def scheduleRecovery (st : MgrState) : MgrState × Option Nat :=
  if 10 ≤ st.recoveryAttempts then
    ({ st with connState := .dead }, none)
  else
    let (d, a2, b2) := fibNext 30000 st.backoffA st.backoffB
    ({ st with connState := .recovering,
               recoveryAttempts := st.recoveryAttempts + 1,
               backoffA := a2, backoffB := b2 }, some d)

/-- The `eventSource.onopen` handler: reset the attempt counter, reseed the
generator, go `live`. -/
def onOpen (st : MgrState) : MgrState :=
  { resetBackoff st with connState := .live }

/-- Run `n` consecutive `scheduleRecovery` calls, collecting the scheduled
delays in order (`none` marks a call that went to `dead` instead). -/
def runRecoveries : Nat → MgrState → MgrState × List (Option Nat)
  | 0, st => (st, [])
  | n + 1, st =>
    let (st2, d) := scheduleRecovery st
    let (st3, ds) := runRecoveries n st2
    (st3, d :: ds)

/-- The mathematical Fibonacci sequence seeded at 1000, 1000 — the spec's
reference sequence for the backoff delays. -/
def fibSeed : Nat → Nat
  | 0 => 1000
  | 1 => 1000
  | n + 2 => fibSeed n + fibSeed (n + 1)

/-! ### Message normalizer (`TelemetryStreamService.ts`)

Parsed JSON messages are modelled by `JVal`: numbers (including `NaN`),
strings, and objects.  (Arrays, booleans and `null` never occur in the
wire shapes the decoders inspect and are outside the modelled space; JSON
numeric literals are always finite.)  Raw text is modelled post-parse: a
JSON-parseable body reaches `parseMessage`, anything else reaches
`parseCSV` with the `Date`/`parseFloat` images of its comma-split tokens.
A present non-number (string) field is handled two ways.  Where the code
*compares* it — the TPV `mode < 2` gate — the JS relational coercion is
modelled faithfully by `toNumber`, with the `Number(string)` image
abstracted as an explicit parameter, exactly like `Date` parsing: a
numeric string such as `"1"` coerces and is rejected by the gate, only
`undefined` and non-coercible values behave as `NaN` there.  Where the
code merely carries the value through an `as number` cast into a frame
field or folds it through `|| 0`, it is collapsed to `nan` / `0`; that can
alter stored frame payload values, but no claim observes those payloads
beyond whether a frame was produced and its sequence number. -/

/-- A parsed JSON value. -/
inductive JVal where
  | num (n : JNum) : JVal
  | str (s : String) : JVal
  | obj (fields : List (String × JVal)) : JVal

/-- Property access `v.k`: `none` models JS `undefined` (absent key, or a
non-object receiver). -/
def JVal.get : JVal → String → Option JVal
  | .obj fs, k => fs.lookup k
  | _, _ => none

/-- `typeof x === 'number'` (true for `NaN` as well). -/
def isNumberV : Option JVal → Bool
  | some (.num _) => true
  | _ => false

/-- `x && typeof x === 'object'` (an object, hence truthy). -/
def isObjectV : Option JVal → Bool
  | some (.obj _) => true
  | _ => false

/-- `x === "lit"` for a string literal comparison. -/
def isStrEq : Option JVal → String → Bool
  | some (.str s), k => s = k
  | _, _ => false

/-- `x as number` stored into a frame field: the TS cast performs no
conversion, and no claim observes these stored values beyond frame
production, so an absent field (`undefined`) and a present non-number are
both collapsed to `nan`.  Never used where the code *compares* a raw
field — that is `toNumber`. -/
def asNum : Option JVal → JNum
  | some (.num n) => n
  | _ => .nan

/-- The JS `ToNumber` coercion applied by a relational comparison such as
`msg.mode < 2`: a number compares as itself, a string as its
`Number(string)` image (abstracted as the parameter `strNum`, `NaN` for
non-numeric text), `undefined` and objects as `NaN`. -/
def toNumber (strNum : String → JNum) : Option JVal → JNum
  | some (.num n) => n
  | some (.str s) => strNum s
  | some (.obj _) => .nan
  | none => .nan

/-- `(x as number) || 0`: `undefined`, `NaN` and `0` are all falsy and
collapse to `0`. -/
def numOr0 : Option JVal → ℚ
  | some (.num (.val q)) => q
  | _ => 0

/-- First present (not `undefined`) value of a `??` chain. -/
def firstPresent : List (Option JVal) → Option JVal
  | [] => none
  | some v :: _ => some v
  | none :: rest => firstPresent rest

/-- `(a ?? b ?? … ?? dflt) as number`: nullish coalescing keeps a present
`NaN` (unlike `||`), falling back to `dflt` only when every field is
absent. -/
def coalesceNum (vs : List (Option JVal)) (dflt : JNum) : JNum :=
  match firstPresent vs with
  | some (.num n) => n
  | some _ => .nan
  | none => dflt

/-! ### Kinematics estimator (`deriveGForces` and its rolling window) -/

/-- One entry of the estimator's rolling `positionHistory` window. -/
structure HistSample where
  t : JNum
  lat : JNum
  lon : JNum
  speed : JNum
  heading : JNum
deriving DecidableEq, Repr, Inhabited

/-- The normalizer's mutable state: the frame sequence counter and the
kinematics rolling window. -/
structure NormState where
  frameSequence : Nat
  positionHistory : List HistSample
deriving DecidableEq, Repr

/-- `positionHistory.push(sample)` followed by the capacity-10 `shift`. -/
def pushSample (hist : List HistSample) (s : HistSample) : List HistSample :=
  let h := hist ++ [s]
  if 10 < h.length then h.tail else h

/-- The newest sample of the window (`history[length - 1]`). -/
def histCurr (hist : List HistSample) : HistSample :=
  hist.getD (hist.length - 1) default

/-- The sample two positions back (`history[length - 3]`), the smoothing
baseline. -/
def histPrev (hist : List HistSample) : HistSample :=
  hist.getD (hist.length - 3) default

/-- Elapsed seconds between the newest sample and the two-back sample:
`(curr.t - prev.t) / 1000`. -/
def elapsedOf (hist : List HistSample) : JNum :=
  ((histCurr hist).t - (histPrev hist).t) / 1000

/-- `wrapDown fuel a`: the `while (angle > 180) angle -= 360` loop.  The
fuel `wrapFuel a` strictly dominates the number of iterations the loop
performs (each iteration subtracts 360 from a value above 180). -/
def wrapDown : Nat → ℚ → ℚ
  | 0, a => a
  | f + 1, a => if 180 < a then wrapDown f (a - 360) else a

/-- `wrapUp fuel a`: the `while (angle < -180) angle += 360` loop. -/
def wrapUp : Nat → ℚ → ℚ
  | 0, a => a
  | f + 1, a => if a < -180 then wrapUp f (a + 360) else a

/-- Iteration bound for the two wrapping loops: `⌈|a| / 360⌉ + 1` steps
always suffice to bring `a` into `[-180, 180]`. -/
def wrapFuel (a : ℚ) : Nat :=
  (⌈|a| / 360⌉).toNat + 1

/-- `normalizeAngle` on a finite value: wrap into `[-180, 180]`. -/
def normalizeAngleQ (a : ℚ) : ℚ :=
  wrapUp (wrapFuel a) (wrapDown (wrapFuel a) a)

/-- `normalizeAngle` on a JS number: both loop guards are `false` for
`NaN`, which therefore passes through unchanged. -/
def normalizeAngleJ : JNum → JNum
  | .val a => .val (normalizeAngleQ a)
  | .nan => .nan

/-- The literal `9.81` (standard gravity), exact. -/
def gravityG : ℚ := 981 / 100

/-- `Math.PI` as the exact rational value of its IEEE-754 double. -/
def mathPI : ℚ := 884279719003555 / 281474976710656

/-- `Math.max(-3, Math.min(3, x))` — the final clamp.  Both `Math.min`
and `Math.max` propagate `NaN`. -/
def clampG (x : JNum) : JNum :=
  JNum.jmax (.val (-3)) (JNum.jmin (.val 3) x)

/-- `TelemetryStreamEngine.deriveGForces`: push the sample into the
rolling window, then derive `(gLat, gLong)` by finite differencing against
the sample two positions back, guarded by the window size and the elapsed
time, and clamped to `[-3, 3]`. -/
def deriveGForces (st : NormState) (t lat lon speed heading : JNum) :
    NormState × JNum × JNum :=
  let hist := pushSample st.positionHistory ⟨t, lat, lon, speed, heading⟩
  let st2 := { st with positionHistory := hist }
  if hist.length < 3 then (st2, 0, 0)
  else
    let curr := histCurr hist
    let prev := histPrev hist
    let dt := elapsedOf hist
    if JNum.jle dt 0 || JNum.jlt 2 dt then (st2, 0, 0)
    else
      let speedDelta := (curr.speed - prev.speed) / .val (18 / 5)
      let gLong := speedDelta / dt / .val gravityG
      let headingDelta := normalizeAngleJ (curr.heading - prev.heading)
      let headingRate := headingDelta * .val mathPI / 180 / dt
      let speedMs := curr.speed / .val (18 / 5)
      let gLat := speedMs * headingRate / .val gravityG
      (st2, clampG gLat, clampG gLong)

/-! ### The canonical frame and the four decoders -/

/-- `CoachingFrame`: the canonical normalized telemetry frame. -/
structure CoachingFrame where
  seq : Nat
  timestamp : JNum
  lat : JNum
  lon : JNum
  altitude : JNum
  heading : JNum
  speedKmh : JNum
  gLateral : JNum
  gLongitudinal : JNum
  throttlePct : JNum
  brakePct : JNum
  steeringDeg : JNum
  rpm : JNum
  gear : JNum
  isGpsDerived : Bool
deriving DecidableEq, Repr

/-- A frame minus its sequence number, as handed to `buildFrame`. -/
structure FrameData where
  timestamp : JNum
  lat : JNum
  lon : JNum
  altitude : JNum
  heading : JNum
  speedKmh : JNum
  gLateral : JNum
  gLongitudinal : JNum
  throttlePct : JNum
  brakePct : JNum
  steeringDeg : JNum
  rpm : JNum
  gear : JNum
  isGpsDerived : Bool

/-- `buildFrame`: stamp the next sequence number (`++this.frameSequence`)
onto the decoded data. -/
def buildFrame (st : NormState) (d : FrameData) : NormState × CoachingFrame :=
  ({ st with frameSequence := st.frameSequence + 1 },
   { seq := st.frameSequence + 1, timestamp := d.timestamp, lat := d.lat,
     lon := d.lon, altitude := d.altitude, heading := d.heading,
     speedKmh := d.speedKmh, gLateral := d.gLateral,
     gLongitudinal := d.gLongitudinal, throttlePct := d.throttlePct,
     brakePct := d.brakePct, steeringDeg := d.steeringDeg, rpm := d.rpm,
     gear := d.gear, isGpsDerived := d.isGpsDerived })

/-- `fromGPSD`: the GPS-daemon (`class: 'TPV'`) decoder.  `dp` abstracts
`new Date(string).getTime()` (it may yield `nan` for garbage), `strNum`
abstracts `Number(string)` for the coercion in the mode comparison, `now`
abstracts `Date.now()`.  Note the only rejection is `mode < 2` under JS
relational coercion, which is `false` when `mode` is absent or coerces to
`NaN`; the coordinates are never validated. -/
def fromGPSD (dp strNum : String → JNum) (now : ℚ) (st : NormState)
    (msg : JVal) : NormState × Option CoachingFrame :=
  let mode := toNumber strNum (msg.get "mode")
  if JNum.jlt mode 2 then (st, none)
  else
    let lat := asNum (msg.get "lat")
    let lon := asNum (msg.get "lon")
    let alt : JNum := .val (numOr0 (msg.get "alt"))
    let speedMs : JNum := .val (numOr0 (msg.get "speed"))
    let heading : JNum := .val (numOr0 (msg.get "track"))
    let timestamp : JNum :=
      match msg.get "time" with
      | some (.str s) => dp s
      | _ => .val now
    let speedKmh := speedMs * .val (18 / 5)
    let r := deriveGForces st timestamp lat lon speedKmh heading
    let st2 := r.1
    let gLat := r.2.1
    let gLong := r.2.2
    let throttle : JNum :=
      if JNum.jlt 10 speedKmh && JNum.jlt (.val (1 / 20)) gLong
      then JNum.jmin 100 (gLong * 150) else 0
    let brake : JNum :=
      if JNum.jlt gLong (.val (-3 / 10))
      then JNum.jmin 100 (JNum.jabs gLong * 100) else 0
    let gear := JNum.jmin 6 (JNum.jmax 1 (JNum.jfloor (speedKmh / 40) + 1))
    let b := buildFrame st2
      { timestamp := timestamp, lat := lat, lon := lon, altitude := alt,
        heading := heading, speedKmh := speedKmh, gLateral := gLat,
        gLongitudinal := gLong, throttlePct := throttle, brakePct := brake,
        steeringDeg := 0, rpm := 0, gear := gear, isGpsDerived := true }
    (b.1, some b.2)

/-- `fromDirectJSON`: the flat-JSON decoder.  Reached only when `lat` and
`lon` are present numbers; the `isNaN` guard rejects `NaN` coordinates
before any state is touched. -/
def fromDirectJSON (now : ℚ) (st : NormState) (msg : JVal) :
    NormState × Option CoachingFrame :=
  let lat := coalesceNum [msg.get "lat", msg.get "latitude"] .nan
  let lon := coalesceNum [msg.get "lon", msg.get "longitude"] .nan
  if lat = .nan ∨ lon = .nan then (st, none)
  else
    let timestamp : JNum :=
      match msg.get "time" with
      | some (.num n) => n
      | _ => .val now
    let speedKmh := coalesceNum [msg.get "speed", msg.get "speedKmh"] 0
    let heading := coalesceNum [msg.get "track", msg.get "heading"] 0
    let hasG := isNumberV (msg.get "gLat") || isNumberV (msg.get "latG")
    let gLat0 := coalesceNum [msg.get "gLat", msg.get "latG", msg.get "gForceLat"] 0
    let gLong0 := coalesceNum [msg.get "gLong", msg.get "longG", msg.get "gForceLong"] 0
    let r :=
      if hasG then (st, gLat0, gLong0)
      else deriveGForces st timestamp lat lon speedKmh heading
    let b := buildFrame r.1
      { timestamp := timestamp, lat := lat, lon := lon,
        altitude := coalesceNum [msg.get "alt", msg.get "altitude"] 0,
        heading := heading, speedKmh := speedKmh, gLateral := r.2.1,
        gLongitudinal := r.2.2,
        throttlePct := coalesceNum [msg.get "throttle", msg.get "throttlePct"] 0,
        brakePct := coalesceNum [msg.get "brake", msg.get "brakePct", msg.get "brakePos"] 0,
        steeringDeg := coalesceNum [msg.get "steering", msg.get "steeringDeg"] 0,
        rpm := coalesceNum [msg.get "rpm"] 0,
        gear := coalesceNum [msg.get "gear"] 0, isGpsDerived := !hasG }
    (b.1, some b.2)

/-- Access `msg.k.sub` through one of the VBOX sub-objects (`?? \x7b\x7d`
makes an absent sub-object behave as an empty one). -/
def subField (msg : JVal) (k sub : String) : Option JVal :=
  match msg.get k with
  | some v => v.get sub
  | none => none

/-- `(x as number) ?? dflt`: a present value (even `NaN`) is kept, only an
absent field falls back. -/
def vboxNum (x : Option JVal) (dflt : JNum) : JNum :=
  match x with
  | some (.num n) => n
  | some _ => .nan
  | none => dflt

/-- `fromVBOXJSON`: the nested-JSON decoder.  It has no validation at all
and always produces a frame, whatever the `gps` sub-object contains. -/
def fromVBOXJSON (now : ℚ) (st : NormState) (msg : JVal) :
    NormState × Option CoachingFrame :=
  let b := buildFrame st
    { timestamp := vboxNum (msg.get "timestamp") (.val now),
      lat := asNum (subField msg "gps" "lat"),
      lon := asNum (subField msg "gps" "lon"),
      altitude := vboxNum (subField msg "gps" "alt") 0,
      heading := vboxNum (subField msg "gps" "heading") 0,
      speedKmh := vboxNum (subField msg "dynamics" "speed") 0,
      gLateral := vboxNum (subField msg "dynamics" "gLat") 0,
      gLongitudinal := vboxNum (subField msg "dynamics" "gLong") 0,
      throttlePct := vboxNum (subField msg "inputs" "throttle") 0,
      brakePct := vboxNum (subField msg "inputs" "brake") 0,
      steeringDeg := vboxNum (subField msg "inputs" "steering") 0,
      rpm := vboxNum (subField msg "engine" "rpm") 0,
      gear := vboxNum (subField msg "engine" "gear") 0,
      isGpsDerived := false }
  (b.1, some b.2)

/-- `parseMessage`: shape dispatch in the TS priority order — GPSD TPV,
then flat JSON (both coordinates present numbers, `NaN` included), then
nested VBOX (`gps` is an object), else `null`. -/
def parseMessage (dp strNum : String → JNum) (now : ℚ) (st : NormState)
    (msg : JVal) : NormState × Option CoachingFrame :=
  if isStrEq (msg.get "class") "TPV" then fromGPSD dp strNum now st msg
  else if isNumberV (msg.get "lat") && isNumberV (msg.get "lon") then
    fromDirectJSON now st msg
  else if isObjectV (msg.get "gps") then fromVBOXJSON now st msg
  else (st, none)

/-- `parseCSV` over the `Date`/`parseFloat` images of the comma-split
tokens of a non-JSON line (`time,lat,lon,alt,speed,climb,track,mode`):
fewer than 8 tokens, an unparseable time, or `NaN` coordinates yield
`null`; the speed and heading tokens are *not* validated. -/
def parseCSV (st : NormState) (fields : List JNum) :
    NormState × Option CoachingFrame :=
  if fields.length < 8 then (st, none)
  else
    let timestamp := fields.getD 0 .nan
    if timestamp = .nan then (st, none)
    else
      let lat := fields.getD 1 .nan
      let lon := fields.getD 2 .nan
      if lat = .nan ∨ lon = .nan then (st, none)
      else
        let alt := fields.getD 3 .nan
        let speedMs := fields.getD 4 .nan
        let heading := fields.getD 6 .nan
        let speedKmh := speedMs * .val (18 / 5)
        let r := deriveGForces st timestamp lat lon speedKmh heading
        let b := buildFrame r.1
          { timestamp := timestamp, lat := lat, lon := lon, altitude := alt,
            heading := heading, speedKmh := speedKmh, gLateral := r.2.1,
            gLongitudinal := r.2.2, throttlePct := 0, brakePct := 0,
            steeringDeg := 0, rpm := 0, gear := 0, isGpsDerived := true }
        (b.1, some b.2)

/-- A raw ingested message body, post-tokenization: a JSON-parseable body
(which, if it matches no shape, yields `null` without falling through to
CSV), or a non-JSON line abstracted as its token values. -/
inductive RawInput where
  | json (v : JVal) : RawInput
  | csvLine (fields : List JNum) : RawInput

/-- `TelemetryStreamEngine.ingest`: decode one raw message into at most
one frame. -/
def ingest (dp strNum : String → JNum) (now : ℚ) (st : NormState)
    (raw : RawInput) : NormState × Option CoachingFrame :=
  match raw with
  | .json v => parseMessage dp strNum now st v
  | .csvLine fields => parseCSV st fields

end Telemetry

namespace Shadow

/-! ### Shadow-Line engine (`gpsService.ts`, `ShadowLineEngineCore`)

The engine is modelled over real-valued (finite) frames; the haversine
distance, which involves transcendental functions, is abstracted as an
explicit distance-function parameter `hav`, and the impure `Date.now()`
used only inside generated lap ids as an explicit `wallNow` parameter.
`ingest` returns the successor state together with the `ShadowState`
snapshots and completed `LapRecord`s it would push to the two listener
sets, in emission order. -/

/-- The telemetry fields of a `CoachingFrame` the engine reads, as finite
reals. -/
structure Frame where
  timestamp : ℚ
  lat : ℚ
  lon : ℚ
  speedKmh : ℚ
  heading : ℚ
  gLateral : ℚ
deriving DecidableEq, Repr, Inhabited

/-- A `ShadowPoint`: one distance-indexed sample of a lap. -/
structure ShadowPoint where
  distance : ℚ
  lat : ℚ
  lon : ℚ
  speedKmh : ℚ
  heading : ℚ
  gLateral : ℚ
  elapsedTime : ℚ
  sectorIndex : ℤ
deriving DecidableEq, Repr, Inhabited

/-- A completed (or synthesized) `LapRecord`. -/
structure LapRecord where
  id : String
  lapNumber : ℤ
  startTime : ℚ
  endTime : ℚ
  totalDistance : ℚ
  lapTime : ℚ
  isComplete : Bool
  points : List ShadowPoint
  sectorTimes : List ℚ
deriving DecidableEq, Repr, Inhabited

/-- The in-progress lap (`this.currentLap`). -/
structure CurLap where
  id : String
  lapNumber : ℤ
  startTime : ℚ
  points : List ShadowPoint
  accumulatedDistance : ℚ
deriving DecidableEq, Repr, Inhabited

/-- A configured `SectorBoundary` (half-open `[start, end)` in meters). -/
structure SectorBoundary where
  id : ℤ
  name : String
  startDistance : ℚ
  endDistance : ℚ
deriving DecidableEq, Repr, Inhabited

/-- The published `ShadowState` (the echo trail pair is flattened into two
fields). -/
structure ShadowState where
  currentLapId : Option String
  shadowLapId : Option String
  distanceInLap : ℚ
  currentDelta : ℚ
  sectorDeltas : List ℚ
  shadowPosition : Option ShadowPoint
  echoUser : List ShadowPoint
  echoShadow : List ShadowPoint
deriving DecidableEq, Repr

/-- The full private state of `ShadowLineEngineCore`. -/
structure EngineState where
  startFinishLine : Option (ℚ × ℚ)
  startFinishRadius : ℚ
  minLapTime : ℚ
  sectorBoundaries : List SectorBoundary
  trackLength : ℚ
  completedLaps : List LapRecord
  currentLap : Option CurLap
  shadowLap : Option LapRecord
  state : ShadowState
  lastFrame : Option Frame
  crossingCooldown : Nat
deriving DecidableEq, Repr

/-- `getCurrentSector`: first boundary whose `[start, end)` interval holds
the distance, else the last sector (`length - 1`; `-1` when no sectors are
configured). -/
def getCurrentSector (sectors : List SectorBoundary) (distance : ℚ) : ℤ :=
  match sectors.findIdx? (fun s =>
      decide (s.startDistance ≤ distance) && decide (distance < s.endDistance)) with
  | some i => (i : ℤ)
  | none => (sectors.length : ℤ) - 1

/-- `calculateSectorTimes`: for each sector in order, the first point at or
past its end boundary closes it; a sector with no such point records 0 and
does not advance the running end-time. -/
def calculateSectorTimes (sectors : List SectorBoundary)
    (points : List ShadowPoint) : List ℚ :=
  (sectors.foldl (fun (acc : List ℚ × ℚ) sector =>
    match points.find? (fun p => decide (sector.endDistance ≤ p.distance)) with
    | some pEnd => (acc.1 ++ [pEnd.elapsedTime - acc.2], pEnd.elapsedTime)
    | none => (acc.1 ++ [0], acc.2)) ([], 0)).1

/-- One step of the best-lap-per-sector scan: `none` models the initial
`(Infinity, null)` pair, so the first strictly-positive time is taken, and
a later lap replaces the incumbent only with a strictly smaller positive
time (ties keep the first lap found). -/
def bestSectorStep (s : Nat) (acc : Option (ℚ × LapRecord)) (lap : LapRecord) :
    Option (ℚ × LapRecord) :=
  let t := lap.sectorTimes.getD s 0
  match acc with
  | none => if 0 < t then some (t, lap) else none
  | some (bt, bl) => if t < bt ∧ 0 < t then some (t, lap) else some (bt, bl)

/-- The lap with the smallest strictly-positive time for sector `s`, with
its time, scanning `laps` in order. -/
def bestSectorLap (laps : List LapRecord) (s : Nat) : Option (ℚ × LapRecord) :=
  laps.foldl (bestSectorStep s) none

/-- `synthesizeShadowLap` as a function of the lap history: `none` for an
empty history, the single lap verbatim for a one-lap history, else the
synthetic `shadow_optimal` lap stitched from each sector's best lap. -/
def synthesizeShadowLap (sectors : List SectorBoundary) (trackLength : ℚ)
    (laps : List LapRecord) : Option LapRecord :=
  if laps.length = 0 then none
  else if laps.length = 1 then laps.head?
  else
    let n := sectors.length
    let stitched := (List.range n).foldl (fun (acc : List ShadowPoint × ℚ) s =>
      match bestSectorLap laps s with
      | none => acc
      | some (_, src) =>
        let sector := sectors.getD s default
        let sectorPoints := src.points.filter (fun p =>
          decide (sector.startDistance ≤ p.distance) &&
          decide (p.distance < sector.endDistance))
        match sectorPoints with
        | [] => acc
        | p0 :: _ =>
          let t0 := p0.elapsedTime
          let shifted := sectorPoints.map (fun p =>
            { p with elapsedTime := acc.2 + (p.elapsedTime - t0) })
          let lastP := sectorPoints.getLast?.getD p0
          (acc.1 ++ shifted, acc.2 + (lastP.elapsedTime - t0))) ([], 0)
    let theoreticalBestTime := (List.range n).foldl (fun sum s =>
      match bestSectorLap laps s with
      | some (_, lap) => sum + lap.sectorTimes.getD s 0
      | none => sum) 0
    some { id := "shadow_optimal", lapNumber := -1, startTime := 0,
           endTime := theoreticalBestTime * 1000, totalDistance := trackLength,
           lapTime := theoreticalBestTime, isComplete := true,
           points := stitched.1,
           sectorTimes := (List.range n).map (fun s =>
             match bestSectorLap laps s with
             | some (_, lap) => lap.sectorTimes.getD s 0
             | none => 0) }

/-- Apply the `synthesizeShadowLap` side effects: `this.shadowLap` is
always written; `state.shadowLapId` only when a shadow was produced. -/
def applySynthesize (eng : EngineState) : EngineState :=
  match synthesizeShadowLap eng.sectorBoundaries eng.trackLength eng.completedLaps with
  | none => { eng with shadowLap := none }
  | some sh =>
    { eng with
      shadowLap := some sh
      state := { eng.state with shadowLapId := some sh.id } }

/-- The `while (low < high)` binary-search loop of
`findShadowPointAtDistance`, with an explicit iteration bound (the
interval shrinks strictly each step, so `points.length` iterations always
suffice from the initial `(0, length - 1)` interval). -/
def bsearchLoop (points : List ShadowPoint) (d : ℚ) :
    Nat → Nat → Nat → Nat
  | 0, low, _ => low
  | fuel + 1, low, high =>
    if low < high then
      let mid := (low + high) / 2
      if (points.getD mid default).distance < d then
        bsearchLoop points d fuel (mid + 1) high
      else bsearchLoop points d fuel low mid
    else low

/-- Binary search for the lowest index whose stored distance is `≥ d`
(the loop's fixpoint), from the initial interval `(0, length - 1)`. -/
def bsearchLow (points : List ShadowPoint) (d : ℚ) : Nat :=
  bsearchLoop points d points.length 0 (points.length - 1)

/-- `findShadowPointAtDistance` over an explicit point array: binary
search for the bracketing pair, then linear interpolation of every numeric
field (the `sectorIndex` is taken from the lower bracket point); at the
boundary indices the nearest stored point is returned as-is. -/
def findShadowPointAtDistance (points : List ShadowPoint) (d : ℚ) :
    Option ShadowPoint :=
  if points.length = 0 then none
  else
    let idx := bsearchLow points d
    if 0 < idx ∧ idx < points.length then
      let p1 := points.getD (idx - 1) default
      let p2 := points.getD idx default
      if p2.distance = p1.distance then some p1
      else
        let frac := (d - p1.distance) / (p2.distance - p1.distance)
        some { distance := d,
               lat := p1.lat + (p2.lat - p1.lat) * frac,
               lon := p1.lon + (p2.lon - p1.lon) * frac,
               speedKmh := p1.speedKmh + (p2.speedKmh - p1.speedKmh) * frac,
               heading := p1.heading + (p2.heading - p1.heading) * frac,
               gLateral := p1.gLateral + (p2.gLateral - p1.gLateral) * frac,
               elapsedTime := p1.elapsedTime + (p2.elapsedTime - p1.elapsedTime) * frac,
               sectorIndex := p1.sectorIndex }
    else some (points.getD (min idx (points.length - 1)) default)

/-- The generated lap id `lap_<Date.now()>_<lapNumber>`. -/
def mkLapId (wallNow : Nat) (lapNumber : Nat) : String :=
  "lap_" ++ toString wallNow ++ "_" ++ toString lapNumber

/-- `handleStartFinishCrossing`: finalize the in-progress lap when it has
at least one point and meets the minimum lap time (push to history, emit
to `onLapComplete`, re-synthesize the shadow) — then, in every case, start
a fresh lap at the crossing frame's timestamp and clear the live state. -/
def handleStartFinishCrossing (wallNow : Nat) (eng : EngineState)
    (frame : Frame) : EngineState × List LapRecord :=
  let now := frame.timestamp
  let fin : EngineState × List LapRecord :=
    match eng.currentLap with
    | some cl =>
      if 0 < cl.points.length then
        let lapTime := (now - cl.startTime) / 1000
        if eng.minLapTime ≤ lapTime then
          let completed : LapRecord :=
            { id := cl.id, lapNumber := cl.lapNumber, startTime := cl.startTime,
              endTime := now, totalDistance := cl.accumulatedDistance,
              lapTime := lapTime, isComplete := true, points := cl.points,
              sectorTimes := calculateSectorTimes eng.sectorBoundaries cl.points }
          let engA := { eng with completedLaps := eng.completedLaps ++ [completed] }
          (applySynthesize engA, [completed])
        else (eng, [])
      else (eng, [])
    | none => (eng, [])
  let eng1 := fin.1
  let lapNumber := eng1.completedLaps.length + 1
  let newLap : CurLap :=
    { id := mkLapId wallNow lapNumber, lapNumber := (lapNumber : ℤ),
      startTime := now, points := [], accumulatedDistance := 0 }
  ({ eng1 with
      currentLap := some newLap
      state := { eng1.state with
                 distanceInLap := 0
                 currentDelta := 0
                 sectorDeltas := List.replicate eng1.sectorBoundaries.length 0
                 echoUser := []
                 echoShadow := [] } }, fin.2)

/-- The distance contributed by this frame:
`haversine(lastFrame, frame)`, or 0 for the very first frame. -/
def distanceDelta (hav : ℚ → ℚ → ℚ → ℚ → ℚ) (eng : EngineState)
    (frame : Frame) : ℚ :=
  match eng.lastFrame with
  | some prev => hav prev.lat prev.lon frame.lat frame.lon
  | none => 0

/-- `ShadowLineEngineCore.ingest`: the per-frame hot path.  Returns the
successor engine state, the `ShadowState` snapshots emitted to
subscribers, and the laps emitted to `onLapComplete`, in order. -/
def ingest (hav : ℚ → ℚ → ℚ → ℚ → ℚ) (wallNow : Nat) (eng : EngineState)
    (frame : Frame) : EngineState × List ShadowState × List LapRecord :=
  match eng.startFinishLine with
  | none => (eng, [], [])
  | some sfl =>
    let dd := distanceDelta hav eng frame
    let distToStart := hav frame.lat frame.lon sfl.1 sfl.2
    let eng1 :=
      if 0 < eng.crossingCooldown then
        { eng with crossingCooldown := eng.crossingCooldown - 1 }
      else eng
    let isCrossing := distToStart < eng1.startFinishRadius ∧ eng1.crossingCooldown = 0
    let cr : EngineState × List LapRecord :=
      if isCrossing then
        let h := handleStartFinishCrossing wallNow eng1 frame
        ({ h.1 with crossingCooldown := 50 }, h.2)
      else (eng1, [])
    let eng2 := cr.1
    match eng2.currentLap with
    | none => ({ eng2 with lastFrame := some frame }, [], cr.2)
    | some cl =>
      let acc := cl.accumulatedDistance + dd
      let currentSector := getCurrentSector eng2.sectorBoundaries acc
      let elapsedTime := (frame.timestamp - cl.startTime) / 1000
      let point : ShadowPoint :=
        { distance := acc, lat := frame.lat, lon := frame.lon,
          speedKmh := frame.speedKmh, heading := frame.heading,
          gLateral := frame.gLateral, elapsedTime := elapsedTime,
          sectorIndex := currentSector }
      let cl2 := { cl with
                   accumulatedDistance := acc
                   points := cl.points ++ [point] }
      let st1 := { eng2.state with
                   currentLapId := some cl2.id
                   distanceInLap := acc }
      let st2 :=
        match eng2.shadowLap with
        | none => st1
        | some sl =>
          let shadowPoint := findShadowPointAtDistance sl.points acc
          let stA := { st1 with shadowPosition := shadowPoint }
          let stB :=
            match shadowPoint with
            | some sp =>
              let delta := elapsedTime - sp.elapsedTime
              let stB0 := { stA with currentDelta := delta }
              if 0 ≤ currentSector ∧
                  currentSector < (stB0.sectorDeltas.length : ℤ) then
                { stB0 with sectorDeltas :=
                    stB0.sectorDeltas.set currentSector.toNat delta }
              else stB0
            | none => stA
          let stC :=
            let eu := stB.echoUser ++ [point]
            { stB with echoUser := if 100 < eu.length then eu.tail else eu }
          match shadowPoint with
          | some sp =>
            let es := stC.echoShadow ++ [sp]
            { stC with echoShadow := if 100 < es.length then es.tail else es }
          | none => stC
      ({ eng2 with
         currentLap := some cl2
         state := st2
         lastFrame := some frame }, [st2], cr.2)

/-- `setShadowLap`: pin the first completed lap with the given id as the
shadow and emit, or report failure leaving everything untouched. -/
def setShadowLap (eng : EngineState) (lapId : String) :
    EngineState × Bool × List ShadowState :=
  match eng.completedLaps.find? (fun l => decide (l.id = lapId)) with
  | some lap =>
    let eng2 := { eng with
                  shadowLap := some lap
                  state := { eng.state with shadowLapId := some lap.id } }
    (eng2, true, [eng2.state])
  | none => (eng, false, [])

end Shadow

/-! ### Concrete instances used in scenario evaluations -/

/-- Degenerate distance function: everything is at distance 0 (inside any
start/finish radius). -/
def havZero : ℚ → ℚ → ℚ → ℚ → ℚ := fun _ _ _ _ => 0

/-- Degenerate distance function: everything is at distance 100 (outside a
25 m start/finish radius). -/
def havFar : ℚ → ℚ → ℚ → ℚ → ℚ := fun _ _ _ _ => 100

/-- Date parser stub for scenarios whose messages carry no time string. -/
def dpNan : String → JNum := fun _ => JNum.nan

/-- `Number(string)` image stub for scenarios whose messages carry no
string-valued numeric fields. -/
def strNumNan : String → JNum := fun _ => JNum.nan

/-- Three 100 m sectors covering a 300 m track. -/
def exSectors : List Shadow.SectorBoundary :=
  [⟨0, "S1", 0, 100⟩, ⟨1, "S2", 100, 200⟩, ⟨2, "S3", 200, 300⟩]

/-- A completed lap with sector times `[30, 40, 35]`. -/
def exLapA : Shadow.LapRecord :=
  { id := "A", lapNumber := 1, startTime := 0, endTime := 105000,
    totalDistance := 300, lapTime := 105, isComplete := true, points := [],
    sectorTimes := [30, 40, 35] }

/-- A completed lap with sector times `[32, 38, 36]`. -/
def exLapB : Shadow.LapRecord :=
  { id := "B", lapNumber := 2, startTime := 105000, endTime := 211000,
    totalDistance := 300, lapTime := 106, isComplete := true, points := [],
    sectorTimes := [32, 38, 36] }

/-- A shadow point at distance 100, sector 0. -/
def exPt1 : Shadow.ShadowPoint :=
  { distance := 100, lat := 1, lon := 2, speedKmh := 80, heading := 10,
    gLateral := 0, elapsedTime := 10, sectorIndex := 0 }

/-- A shadow point at distance 200, sector 1. -/
def exPt2 : Shadow.ShadowPoint :=
  { distance := 200, lat := 3, lon := 4, speedKmh := 90, heading := 20,
    gLateral := 1, elapsedTime := 12, sectorIndex := 1 }

/-- A point recorded 5 s into an in-progress lap. -/
def exOldPoint : Shadow.ShadowPoint :=
  { distance := 250, lat := 0, lon := 0, speedKmh := 80, heading := 0,
    gLateral := 0, elapsedTime := 5, sectorIndex := 2 }

/-- An in-progress lap that started at timestamp 0 with one recorded point
and 500 m accumulated. -/
def exCl : Shadow.CurLap :=
  { id := "old", lapNumber := 1, startTime := 0, points := [exOldPoint],
    accumulatedDistance := 500 }

/-- A configured engine (radius 25, `minLapTime` 30) with `exCl` in
progress, empty history, no shadow, cooldown elapsed. -/
def engC1 : Shadow.EngineState :=
  { startFinishLine := some (0, 0), startFinishRadius := 25, minLapTime := 30,
    sectorBoundaries := exSectors, trackLength := 300, completedLaps := [],
    currentLap := some exCl, shadowLap := none,
    state := { currentLapId := some "old", shadowLapId := none,
               distanceInLap := 500, currentDelta := 0,
               sectorDeltas := [0, 0, 0], shadowPosition := none,
               echoUser := [], echoShadow := [] },
    lastFrame := none, crossingCooldown := 0 }

/-- A frame arriving 10 s after `exCl` started (below the 30 s floor). -/
def frameC1 : Shadow.Frame :=
  { timestamp := 10000, lat := 0, lon := 0, speedKmh := 50, heading := 0,
    gLateral := 0 }

/-- A configured engine with two completed laps and nothing in progress. -/
def engC9 : Shadow.EngineState :=
  { engC1 with
    completedLaps := [exLapA, exLapB]
    currentLap := none
    state := { engC1.state with currentLapId := none, distanceInLap := 0 } }

/-- A configured engine with no lap in progress and no crossing pending. -/
def engC10 : Shadow.EngineState :=
  { engC1 with currentLap := none }

/-- A flat telemetry message carrying numeric `lat`/`lon` only. -/
def exDirect : Telemetry.JVal :=
  .obj [("lat", .num (.val 1)), ("lon", .num (.val 2))]

/-- A GPS-daemon fix report with a 3D fix but a `NaN` latitude. -/
def exTPVNaN : Telemetry.JVal :=
  .obj [("class", .str "TPV"), ("mode", .num (.val 3)),
        ("lat", .num .nan), ("lon", .num (.val 7))]

/-- A GPS-daemon fix report with no `mode` field at all. -/
def exTPVNoMode : Telemetry.JVal :=
  .obj [("class", .str "TPV"), ("lat", .num (.val 1)), ("lon", .num (.val 2))]

/-- A GPS-daemon fix report whose `mode` is the numeric string `"1"`
(JSON string, coerced by the JS comparison). -/
def exTPVStrMode : Telemetry.JVal :=
  .obj [("class", .str "TPV"), ("mode", .str "1"),
        ("lat", .num (.val 1)), ("lon", .num (.val 2))]

/-- The `Number(string)` image on the strings the scenarios use: `"1"`
parses to 1, anything else to `NaN`. -/
def strNumOne : String → JNum :=
  fun s => if s = "1" then .val 1 else .nan

/-- The frame `exDirect` decodes to from a fresh normalizer at wall-clock
time 0. -/
def exFrameDirect : Telemetry.CoachingFrame :=
  { seq := 1, timestamp := .val 0, lat := .val 1, lon := .val 2,
    altitude := .val 0, heading := .val 0, speedKmh := .val 0,
    gLateral := .val 0, gLongitudinal := .val 0, throttlePct := .val 0,
    brakePct := .val 0, steeringDeg := .val 0, rpm := .val 0,
    gear := .val 0, isGpsDerived := true }

/-- Two buffered real samples 100 ms apart at 100 km/h, heading 90. -/
def stC6 : Telemetry.NormState :=
  { frameSequence := 0,
    positionHistory :=
      [⟨.val 0, .val 0, .val 0, .val 100, .val 90⟩,
       ⟨.val 100, .val 0, .val 0, .val 100, .val 90⟩] }

/-- A JSON message matching none of the three decoder shapes. -/
def exNoShape : Telemetry.JVal :=
  .obj [("foo", .num (.val 1))]

/-- A CSV-style token line with a non-numeric speed token (`parseFloat`
image `NaN`) but valid time and coordinates. -/
def exCsvNanSpeed : List JNum :=
  [.val 0, .val 1, .val 2, .val 0, .nan, .val 0, .val 90, .val 3]

/-! ### Claim C7: Fibonacci recovery backoff -/

/-- C7.  From a reset backoff state (as installed by `connect` and by every
successful `onopen`), the k-th consecutive recovery delay is the k-th
Fibonacci value seeded at 1000 ms capped at 30000 ms
(1000, 1000, 2000, 3000, 5000, …); the 11th consecutive call schedules no
delay and instead transitions the manager to the terminal `dead` state;
and a successful open reseeds the generator so the next delay is 1000 ms
again. -/
theorem c7_fibonacci_backoff (st : Telemetry.MgrState)
    (ha : st.backoffA = 1000) (hb : st.backoffB = 1000)
    (hr : st.recoveryAttempts = 0) :
    (Telemetry.runRecoveries 11 st).2 =
      (List.range 10).map (fun k => some (min (Telemetry.fibSeed k) 30000))
        ++ [none] ∧
    (Telemetry.runRecoveries 11 st).1.connState = Telemetry.ConnState.dead ∧
    ∀ st2 : Telemetry.MgrState,
      (Telemetry.scheduleRecovery (Telemetry.onOpen st2)).2 = some 1000 ∧
      (Telemetry.onOpen st2).backoffA = 1000 ∧
      (Telemetry.onOpen st2).backoffB = 1000 ∧
      (Telemetry.onOpen st2).recoveryAttempts = 0 := by
  obtain ⟨c, a, b, r⟩ := st
  simp only at ha hb hr
  subst ha hb hr
  exact ⟨rfl, rfl, fun st2 => ⟨rfl, rfl, rfl, rfl⟩⟩

/-- C7 witness: the concrete run from an idle reset manager. -/
theorem c7_fibonacci_backoff_witness :
    (⟨Telemetry.ConnState.idle, 1000, 1000, 0⟩ : Telemetry.MgrState).backoffA
        = 1000 ∧
    ((Telemetry.runRecoveries 11 ⟨Telemetry.ConnState.idle, 1000, 1000, 0⟩).2 =
      (List.range 10).map (fun k => some (min (Telemetry.fibSeed k) 30000))
        ++ [none] ∧
    (Telemetry.runRecoveries 11
        ⟨Telemetry.ConnState.idle, 1000, 1000, 0⟩).1.connState =
      Telemetry.ConnState.dead ∧
    ∀ st2 : Telemetry.MgrState,
      (Telemetry.scheduleRecovery (Telemetry.onOpen st2)).2 = some 1000 ∧
      (Telemetry.onOpen st2).backoffA = 1000 ∧
      (Telemetry.onOpen st2).backoffB = 1000 ∧
      (Telemetry.onOpen st2).recoveryAttempts = 0) :=
  ⟨rfl, c7_fibonacci_backoff ⟨Telemetry.ConnState.idle, 1000, 1000, 0⟩ rfl rfl rfl⟩

/-! ### Claim C9: manual shadow selection -/

/-- C9.  `setShadowLap` with an id absent from the completed-lap history
returns `false`, leaves the entire engine state untouched, and emits
nothing; with an id present in the history it returns `true` and installs
the first lap bearing that id as the shadow (updating only `shadowLap`
and the published `shadowLapId`, and emitting the updated state once). -/
theorem c9_setShadowLap_behavior (eng : Shadow.EngineState) (lapId : String) :
    ((∀ l ∈ eng.completedLaps, l.id ≠ lapId) →
      Shadow.setShadowLap eng lapId = (eng, false, [])) ∧
    ∀ l0 ∈ eng.completedLaps, l0.id = lapId →
      ∃ lap, lap ∈ eng.completedLaps ∧ lap.id = lapId ∧
        Shadow.setShadowLap eng lapId =
          ({ eng with
             shadowLap := some lap
             state := { eng.state with shadowLapId := some lap.id } }, true,
           [{ eng.state with shadowLapId := some lap.id }]) := by
  constructor
  · intro h
    have hf : eng.completedLaps.find? (fun l => decide (l.id = lapId)) = none := by
      rw [List.find?_eq_none]
      intro x hx
      simp [h x hx]
    unfold Shadow.setShadowLap
    rw [hf]
  · intro l0 hl0 hid
    have hs : (eng.completedLaps.find? (fun l => decide (l.id = lapId))).isSome := by
      rw [List.find?_isSome]
      exact ⟨l0, hl0, by simp [hid]⟩
    obtain ⟨lap, hlap⟩ := Option.isSome_iff_exists.mp hs
    have hmem := List.mem_of_find?_eq_some hlap
    have hp := List.find?_some hlap
    simp only [decide_eq_true_eq] at hp
    refine ⟨lap, hmem, hp, ?_⟩
    unfold Shadow.setShadowLap
    rw [hlap]

/-- C9 witness: on a history holding laps `A` and `B`, an unknown id fails
and changes nothing, and id `A` succeeds. -/
theorem c9_setShadowLap_behavior_witness :
    Shadow.setShadowLap engC9 "zzz" = (engC9, false, []) ∧
    ∃ lap, lap ∈ engC9.completedLaps ∧ lap.id = "A" ∧
      Shadow.setShadowLap engC9 "A" =
        ({ engC9 with
           shadowLap := some lap
           state := { engC9.state with shadowLapId := some lap.id } }, true,
         [{ engC9.state with shadowLapId := some lap.id }]) :=
  ⟨(c9_setShadowLap_behavior engC9 "zzz").1 (by decide),
   (c9_setShadowLap_behavior engC9 "A").2 exLapA (by decide) (by decide)⟩

/-! ### Claim C10: frame effect with no lap in progress -/

/-- C10.  A frame ingested by a configured engine while no lap is in
progress, before any crossing is pending (cooldown elapsed) and outside
the crossing branch, is recorded to no lap, triggers no state emission and
no lap emission, and changes nothing except `lastFrame` (in particular
`distanceInLap`, `currentDelta`, `sectorDeltas` and the echo trails are
untouched). -/
theorem c10_no_lap_frame_effect (hav : ℚ → ℚ → ℚ → ℚ → ℚ) (wallNow : Nat)
    (eng : Shadow.EngineState) (frame : Shadow.Frame) (sfl : ℚ × ℚ)
    (hline : eng.startFinishLine = some sfl)
    (hlap : eng.currentLap = none)
    (hcool : eng.crossingCooldown = 0)
    (hfar : ¬ hav frame.lat frame.lon sfl.1 sfl.2 < eng.startFinishRadius) :
    Shadow.ingest hav wallNow eng frame =
      ({ eng with lastFrame := some frame }, [], []) := by
  simp only [Shadow.ingest, hline, hcool, hlap, hfar, Nat.lt_irrefl, if_false,
    false_and, and_true, if_neg, reduceIte]

/-- C10 witness: a frame far from the line on an idle configured engine. -/
theorem c10_no_lap_frame_effect_witness :
    Shadow.ingest havFar 0 engC10 frameC1 =
      ({ engC10 with lastFrame := some frameC1 }, [], []) :=
  c10_no_lap_frame_effect havFar 0 engC10 frameC1 (0, 0) rfl rfl rfl (by decide)

/-! ### Claim C1: crossing with a short in-progress lap -/

/-- Helper: full characterization of a crossing whose in-progress lap has
at least one point but is below the minimum lap time. -/
theorem crossing_short_lap_spec (hav : ℚ → ℚ → ℚ → ℚ → ℚ) (wallNow : Nat)
    (eng : Shadow.EngineState) (frame : Shadow.Frame) (sfl : ℚ × ℚ)
    (cl : Shadow.CurLap)
    (hline : eng.startFinishLine = some sfl)
    (hcool : eng.crossingCooldown = 0)
    (hnear : hav frame.lat frame.lon sfl.1 sfl.2 < eng.startFinishRadius)
    (hlap : eng.currentLap = some cl)
    (hpts : 0 < cl.points.length)
    (hshort : (frame.timestamp - cl.startTime) / 1000 < eng.minLapTime) :
    (Shadow.ingest hav wallNow eng frame).1.completedLaps = eng.completedLaps ∧
    (Shadow.ingest hav wallNow eng frame).2.2 = [] ∧
    ∃ nl, (Shadow.ingest hav wallNow eng frame).1.currentLap = some nl ∧
      nl.id = Shadow.mkLapId wallNow (eng.completedLaps.length + 1) ∧
      nl.startTime = frame.timestamp ∧
      nl.accumulatedDistance = Shadow.distanceDelta hav eng frame ∧
      nl.points.length = 1 ∧
      ∀ p ∈ nl.points, p.elapsedTime = 0 ∧
        p.distance = Shadow.distanceDelta hav eng frame := by
  have hnotle : ¬ eng.minLapTime ≤ (frame.timestamp - cl.startTime) / 1000 :=
    not_le.mpr hshort
  simp only [Shadow.ingest, hline, hcool, lt_self_iff_false, reduceIte,
    Shadow.handleStartFinishCrossing, hlap, hpts, hnotle, if_false, if_true,
    hnear, and_self, and_true, true_and, if_pos]
  refine ⟨_, rfl, rfl, rfl, by simp, by simp, ?_⟩
  intro p hp
  simp only [List.nil_append, List.mem_singleton] at hp
  subst hp
  constructor
  · simp
  · simp

/-- C1 (amended).  A crossing while a lap is in progress with at least one
point but elapsed time below `minLapTime` creates no Lap Record — the
history and `onLapComplete` emissions are untouched — but the in-progress
lap is *not* left unclosed: it is discarded and replaced by a fresh lap
started at the crossing frame (new id and start time, distance restarted
from this frame's delta alone, prior points gone). -/
theorem c1_short_lap_discarded (hav : ℚ → ℚ → ℚ → ℚ → ℚ) (wallNow : Nat)
    (eng : Shadow.EngineState) (frame : Shadow.Frame) (sfl : ℚ × ℚ)
    (cl : Shadow.CurLap)
    (hline : eng.startFinishLine = some sfl)
    (hcool : eng.crossingCooldown = 0)
    (hnear : hav frame.lat frame.lon sfl.1 sfl.2 < eng.startFinishRadius)
    (hlap : eng.currentLap = some cl)
    (hpts : 0 < cl.points.length)
    (hshort : (frame.timestamp - cl.startTime) / 1000 < eng.minLapTime) :
    (Shadow.ingest hav wallNow eng frame).1.completedLaps = eng.completedLaps ∧
    (Shadow.ingest hav wallNow eng frame).2.2 = [] ∧
    ∃ nl, (Shadow.ingest hav wallNow eng frame).1.currentLap = some nl ∧
      nl.id = Shadow.mkLapId wallNow (eng.completedLaps.length + 1) ∧
      nl.startTime = frame.timestamp ∧
      nl.accumulatedDistance = Shadow.distanceDelta hav eng frame ∧
      nl.points.length = 1 ∧
      ∀ p ∈ nl.points, p.elapsedTime = 0 ∧
        p.distance = Shadow.distanceDelta hav eng frame :=
  crossing_short_lap_spec hav wallNow eng frame sfl cl hline hcool hnear hlap
    hpts hshort

/-- C1 witness: the concrete 10 s lap rejected at a crossing with a 30 s
floor. -/
theorem c1_short_lap_discarded_witness :
    (Shadow.ingest havZero 777 engC1 frameC1).1.completedLaps =
      engC1.completedLaps ∧
    (Shadow.ingest havZero 777 engC1 frameC1).2.2 = [] ∧
    ∃ nl, (Shadow.ingest havZero 777 engC1 frameC1).1.currentLap = some nl ∧
      nl.id = Shadow.mkLapId 777 (engC1.completedLaps.length + 1) ∧
      nl.startTime = frameC1.timestamp ∧
      nl.accumulatedDistance = Shadow.distanceDelta havZero engC1 frameC1 ∧
      nl.points.length = 1 ∧
      ∀ p ∈ nl.points, p.elapsedTime = 0 ∧
        p.distance = Shadow.distanceDelta havZero engC1 frameC1 :=
  c1_short_lap_discarded havZero 777 engC1 frameC1 (0, 0) exCl rfl rfl
    (by with_unfolding_all decide) rfl (by decide)
    (by with_unfolding_all decide)

/-- C1 counterexample.  The claim says the in-progress lap is left
unclosed and keeps accumulating its own distance and points; concretely,
after the sub-minimum crossing, the lap that had 500 m and a recorded
point holds 0 m, a new start time, and no longer contains that point —
while (the true part) no Lap Record was created and nothing was emitted to
`onLapComplete`. -/
theorem c1_short_lap_discarded_cex :
    (Shadow.ingest havZero 777 engC1 frameC1).1.completedLaps = [] ∧
    (Shadow.ingest havZero 777 engC1 frameC1).2.2 = [] ∧
    engC1.currentLap.map Shadow.CurLap.accumulatedDistance = some 500 ∧
    (Shadow.ingest havZero 777 engC1 frameC1).1.currentLap.map
        Shadow.CurLap.accumulatedDistance = some 0 ∧
    engC1.currentLap.map Shadow.CurLap.startTime = some 0 ∧
    (Shadow.ingest havZero 777 engC1 frameC1).1.currentLap.map
        Shadow.CurLap.startTime = some 10000 ∧
    (Shadow.ingest havZero 777 engC1 frameC1).1.currentLap.map
        (fun c => decide (exOldPoint ∈ c.points)) = some false := by
  obtain ⟨h1, h2, nl, hnl, hid, hst, hacc, hlen, hp⟩ :=
    crossing_short_lap_spec havZero 777 engC1 frameC1 (0, 0) exCl rfl rfl
      (by norm_num [havZero, engC1]) rfl (by simp [exCl])
      (by norm_num [engC1, frameC1, exCl])
  have hdd : Shadow.distanceDelta havZero engC1 frameC1 = 0 := by
    simp [Shadow.distanceDelta, engC1]
  have hnomem : exOldPoint ∉ nl.points := by
    intro hmem
    have hd := (hp exOldPoint hmem).2
    rw [hdd] at hd
    simp [exOldPoint] at hd
  refine ⟨by simpa [engC1] using h1, h2, by simp [engC1, exCl], ?_, ?_, ?_, ?_⟩
  · rw [hnl]; simp [hacc, hdd]
  · simp [engC1, exCl]
  · rw [hnl]; simp [hst, frameC1]
  · rw [hnl]
    simp [hnomem]

/-! ### Claim C3: interpolation at stored distances -/

/-- Helper: `getD` at an in-range index with the `default` fallback is
`get`. -/
theorem listGetD_eq_get {α : Type _} [Inhabited α] (l : List α) (i : Nat)
    (h : i < l.length) : l.getD i default = l.get ⟨i, h⟩ := by
  rw [List.getD_eq_getElem?_getD, List.getElem?_eq_getElem h]
  rfl

/-- Helper: the binary-search loop returns the least index `k` of the
interval whose stored distance is not below `d`, given enough fuel. -/
theorem bsearchLoop_eq (points : List Shadow.ShadowPoint) (d : ℚ) :
    ∀ (fuel low high k : Nat), high - low ≤ fuel → high < points.length →
    low ≤ k → k ≤ high →
    (∀ i, low ≤ i → i < k → (points.getD i default).distance < d) →
    (∀ i, k ≤ i → i ≤ high → ¬ (points.getD i default).distance < d) →
    Shadow.bsearchLoop points d fuel low high = k := by
  intro fuel
  induction fuel with
  | zero =>
    intro low high k hfl hh hlk hkh hb ha
    simp only [Shadow.bsearchLoop]
    omega
  | succ f ih =>
    intro low high k hfl hh hlk hkh hb ha
    simp only [Shadow.bsearchLoop]
    by_cases hlh : low < high
    · rw [if_pos hlh]
      have hmlow : low ≤ (low + high) / 2 := by omega
      have hmhigh : (low + high) / 2 < high := by omega
      by_cases hcmp : (points.getD ((low + high) / 2) default).distance < d
      · rw [if_pos hcmp]
        have hmk : (low + high) / 2 < k := by
          by_contra hc
          push_neg at hc
          exact ha _ hc (le_of_lt hmhigh) hcmp
        exact ih _ high k (by omega) hh (by omega) hkh
          (fun i h1 h2 => hb i (by omega) h2) ha
      · rw [if_neg hcmp]
        have hkm : k ≤ (low + high) / 2 := by
          by_contra hc
          push_neg at hc
          exact hcmp (hb _ hmlow hc)
        exact ih low _ k (by omega) (by omega) hlk hkm hb
          (fun i h1 h2 => ha i h1 (by omega))
    · rw [if_neg hlh]
      omega

/-- Helper: in a strictly distance-sorted point list, distances are
strictly monotone in the index. -/
theorem sorted_distance_lt (points : List Shadow.ShadowPoint)
    (hs : points.Pairwise (fun a b => a.distance < b.distance))
    {i j : Nat} (hij : i < j) (hj : j < points.length) :
    (points.getD i default).distance < (points.getD j default).distance := by
  rw [listGetD_eq_get _ _ (lt_trans hij hj), listGetD_eq_get _ _ hj]
  exact List.pairwise_iff_get.mp hs ⟨i, lt_trans hij hj⟩ ⟨j, hj⟩ hij

/-- Helper: binary search queried at the k-th stored distance of a
strictly sorted list lands exactly on index k. -/
theorem bsearchLow_exact (points : List Shadow.ShadowPoint)
    (hs : points.Pairwise (fun a b => a.distance < b.distance))
    (k : Nat) (hk : k < points.length) :
    Shadow.bsearchLow points (points.getD k default).distance = k := by
  unfold Shadow.bsearchLow
  apply bsearchLoop_eq
  · omega
  · omega
  · omega
  · omega
  · intro i h0 hik
    exact sorted_distance_lt points hs hik hk
  · intro i hki hih
    rcases eq_or_lt_of_le hki with h | h
    · rw [← h]
      exact lt_irrefl _
    · exact not_lt_of_gt (sorted_distance_lt points hs h (by omega))

/-- C3 (amended).  On a non-empty strictly distance-sorted point array, a
query at the k-th stored distance lands on that point via binary search:
for k = 0 the stored point is returned unmodified, and for k ≥ 1 every
numeric field of the result equals the stored point's (the bracketing
interpolation evaluates at ratio 1), but the `sectorIndex` is taken from
the preceding point, so the stored point is returned truly unmodified only
when it shares `sectorIndex` with its predecessor.  At the midpoint of two
stored points with distances 100 and 200 and elapsed times 10 and 12 the
interpolated elapsed time is 11. -/
theorem c3_stored_distance_interpolation :
    (∀ (points : List Shadow.ShadowPoint),
      points.Pairwise (fun a b => a.distance < b.distance) →
      ∀ k, k < points.length →
      ((k = 0 → Shadow.findShadowPointAtDistance points
          (points.getD 0 default).distance = some (points.getD 0 default)) ∧
       (0 < k → ∃ p, Shadow.findShadowPointAtDistance points
          (points.getD k default).distance = some p ∧
          p.distance = (points.getD k default).distance ∧
          p.lat = (points.getD k default).lat ∧
          p.lon = (points.getD k default).lon ∧
          p.speedKmh = (points.getD k default).speedKmh ∧
          p.heading = (points.getD k default).heading ∧
          p.gLateral = (points.getD k default).gLateral ∧
          p.elapsedTime = (points.getD k default).elapsedTime ∧
          p.sectorIndex = (points.getD (k - 1) default).sectorIndex))) ∧
    (∀ a b : Shadow.ShadowPoint, a.distance = 100 → b.distance = 200 →
      a.elapsedTime = 10 → b.elapsedTime = 12 →
      (Shadow.findShadowPointAtDistance [a, b] 150).map
        Shadow.ShadowPoint.elapsedTime = some 11) := by
  constructor
  · intro points hs k hk
    constructor
    · intro hk0
      subst hk0
      have hlow := bsearchLow_exact points hs 0 hk
      have hlen : ¬ points.length = 0 := by omega
      simp only [Shadow.findShadowPointAtDistance, hlow, hlen, if_false,
        lt_self_iff_false, false_and, reduceIte, Nat.zero_min]
    · intro hk0
      have hlow := bsearchLow_exact points hs k hk
      have hlen : ¬ points.length = 0 := by omega
      have hne : (points.getD (k - 1) default).distance <
          (points.getD k default).distance :=
        sorted_distance_lt points hs (by omega) hk
      simp only [Shadow.findShadowPointAtDistance, hlow, hlen, if_false,
        reduceIte]
      rw [if_pos ⟨hk0, hk⟩, if_neg (ne_of_gt hne)]
      have hfrac : ((points.getD k default).distance -
          (points.getD (k - 1) default).distance) /
          ((points.getD k default).distance -
          (points.getD (k - 1) default).distance) = 1 :=
        div_self (sub_ne_zero.mpr (ne_of_gt hne))
      rw [hfrac]
      refine ⟨_, rfl, rfl, by ring, by ring, by ring, by ring, by ring,
        by ring, rfl⟩
  · intro a b ha hb hta htb
    have hfind : Shadow.bsearchLow [a, b] 150 = 1 := by
      unfold Shadow.bsearchLow
      apply bsearchLoop_eq
      · simp
      · simp
      · omega
      · simp
      · intro i h0 h1
        have : i = 0 := by omega
        subst this
        norm_num [ha]
      · intro i h1 h2
        have : i = 1 := by simp at h2; omega
        subst this
        norm_num [hb]
    simp only [Shadow.findShadowPointAtDistance, hfind]
    norm_num
    rw [ha, hb, hta, htb]
    norm_num

/-- C3 counterexample.  The claim says a query at a stored point's
distance returns that point unmodified; at the stored distance 200 of
`exPt2` the engine instead returns a point carrying `exPt1`'s sector
index. -/
theorem c3_stored_distance_interpolation_cex :
    Shadow.findShadowPointAtDistance [exPt1, exPt2] exPt2.distance ≠
      some exPt2 ∧
    Shadow.findShadowPointAtDistance [exPt1, exPt2] exPt2.distance =
      some { exPt2 with sectorIndex := exPt1.sectorIndex } ∧
    exPt1.sectorIndex ≠ exPt2.sectorIndex := by
  refine ⟨?_, ?_, by decide⟩ <;> with_unfolding_all decide

/-- C3 witness: the concrete two-point array at stored distance 200 and
at the 150 midpoint. -/
theorem c3_stored_distance_interpolation_witness :
    (∃ p, Shadow.findShadowPointAtDistance [exPt1, exPt2] exPt2.distance =
        some p ∧
      p.distance = exPt2.distance ∧ p.lat = exPt2.lat ∧ p.lon = exPt2.lon ∧
      p.speedKmh = exPt2.speedKmh ∧ p.heading = exPt2.heading ∧
      p.gLateral = exPt2.gLateral ∧ p.elapsedTime = exPt2.elapsedTime ∧
      p.sectorIndex = exPt1.sectorIndex) ∧
    (Shadow.findShadowPointAtDistance [exPt1, exPt2] 150).map
      Shadow.ShadowPoint.elapsedTime = some 11 :=
  ⟨(c3_stored_distance_interpolation.1 [exPt1, exPt2]
      (by norm_num [List.pairwise_cons, exPt1, exPt2]) 1 (by decide)).2
      (by decide),
   c3_stored_distance_interpolation.2 exPt1 exPt2 rfl rfl rfl rfl⟩

/-! ### Claim C2: shadow synthesis from best sectors -/

/-- Helper: the best-lap-per-sector fold selects exactly the first lap
attaining the smallest strictly-positive time for the sector, or nothing
when no lap has a positive time there. -/
theorem bestSectorLap_spec (s : Nat) (laps : List Shadow.LapRecord) :
    (Shadow.bestSectorLap laps s = none ∧
      ∀ l ∈ laps, l.sectorTimes.getD s 0 ≤ 0) ∨
    (∃ bt bl pre post, Shadow.bestSectorLap laps s = some (bt, bl) ∧
      laps = pre ++ bl :: post ∧
      bt = bl.sectorTimes.getD s 0 ∧ 0 < bt ∧
      (∀ l ∈ laps, 0 < l.sectorTimes.getD s 0 →
        bt ≤ l.sectorTimes.getD s 0) ∧
      (∀ l ∈ pre, 0 < l.sectorTimes.getD s 0 →
        bt < l.sectorTimes.getD s 0)) := by
  induction laps using List.reverseRecOn with
  | nil =>
    left
    exact ⟨rfl, by simp⟩
  | append_singleton xs x ih =>
    have hfold : Shadow.bestSectorLap (xs ++ [x]) s =
        Shadow.bestSectorStep s (Shadow.bestSectorLap xs s) x := by
      simp [Shadow.bestSectorLap, List.foldl_append]
    rcases ih with ⟨hnone, hall⟩ | ⟨bt, bl, pre, post, hsome, hsplit, hbt,
        hpos, hmin, hstrict⟩
    · by_cases htx : 0 < x.sectorTimes.getD s 0
      · right
        refine ⟨x.sectorTimes.getD s 0, x, xs, [], ?_, rfl, rfl, htx, ?_, ?_⟩
        · rw [hfold, hnone]
          simp only [Shadow.bestSectorStep]
          rw [if_pos htx]
        · intro l hl hlpos
          rcases List.mem_append.mp hl with h | h
          · exact absurd hlpos (not_lt.mpr (hall l h))
          · rw [List.mem_singleton.mp h]
        · intro l hl hlpos
          exact absurd hlpos (not_lt.mpr (hall l hl))
      · left
        constructor
        · rw [hfold, hnone]
          simp only [Shadow.bestSectorStep]
          rw [if_neg htx]
        · intro l hl
          rcases List.mem_append.mp hl with h | h
          · exact hall l h
          · rw [List.mem_singleton.mp h]
            exact not_lt.mp htx
    · by_cases hc : x.sectorTimes.getD s 0 < bt ∧ 0 < x.sectorTimes.getD s 0
      · right
        refine ⟨x.sectorTimes.getD s 0, x, xs, [], ?_, rfl, rfl, hc.2, ?_, ?_⟩
        · rw [hfold, hsome]
          simp only [Shadow.bestSectorStep]
          rw [if_pos hc]
        · intro l hl hlpos
          rcases List.mem_append.mp hl with h | h
          · exact le_of_lt (lt_of_lt_of_le hc.1 (hmin l h hlpos))
          · rw [List.mem_singleton.mp h]
        · intro l hl hlpos
          exact lt_of_lt_of_le hc.1 (hmin l hl hlpos)
      · right
        refine ⟨bt, bl, pre, post ++ [x], ?_, ?_, hbt, hpos, ?_, hstrict⟩
        · rw [hfold, hsome]
          simp only [Shadow.bestSectorStep]
          rw [if_neg hc]
        · rw [hsplit]
          simp
        · intro l hl hlpos
          rcases List.mem_append.mp hl with h | h
          · exact hmin l h hlpos
          · rw [List.mem_singleton.mp h] at hlpos ⊢
            rcases not_and_or.mp hc with h2 | h2
            · exact not_lt.mp h2
            · exact absurd hlpos h2

/-- Helper: folding an accumulate-only step over a list sums the mapped
values. -/
theorem foldl_add_map_sum (g : Nat → ℚ) (l : List Nat) :
    ∀ init : ℚ, l.foldl (fun sum s => sum + g s) init = init + (l.map g).sum := by
  induction l with
  | nil => intro init; simp
  | cons a t ih =>
    intro init
    simp [List.foldl_cons, ih, add_assoc]

/-- C2.  With two or more completed laps, shadow synthesis selects for
each sector the lap with the smallest strictly-positive recorded time for
that sector (a lap earlier in encounter order wins ties: every lap before
the selected one with a positive time is strictly slower); the synthesized
shadow's `sectorTimes[s]` equals that best time and its `lapTime` is the
sum of the selected best sector times.  In particular, laps with sector
times `[30, 40, 35]` and `[32, 38, 36]` yield a shadow with sector times
`[30, 38, 35]` and total time 103. -/
theorem c2_shadow_synthesis :
    (∀ (sectors : List Shadow.SectorBoundary) (tl : ℚ)
        (laps : List Shadow.LapRecord), 2 ≤ laps.length →
      ∃ sh, Shadow.synthesizeShadowLap sectors tl laps = some sh ∧
        sh.lapTime = sh.sectorTimes.sum ∧
        sh.sectorTimes.length = sectors.length ∧
        ∀ s, s < sectors.length →
          ∀ l0 ∈ laps, 0 < l0.sectorTimes.getD s 0 →
            ∃ bl pre post, laps = pre ++ bl :: post ∧
              0 < bl.sectorTimes.getD s 0 ∧
              sh.sectorTimes.getD s 0 = bl.sectorTimes.getD s 0 ∧
              (∀ l ∈ laps, 0 < l.sectorTimes.getD s 0 →
                bl.sectorTimes.getD s 0 ≤ l.sectorTimes.getD s 0) ∧
              (∀ l ∈ pre, 0 < l.sectorTimes.getD s 0 →
                bl.sectorTimes.getD s 0 < l.sectorTimes.getD s 0)) ∧
    (∃ sh2, Shadow.synthesizeShadowLap exSectors 300 [exLapA, exLapB] =
        some sh2 ∧
      sh2.sectorTimes = [30, 38, 35] ∧ sh2.lapTime = 103) := by
  constructor
  · intro sectors tl laps h2
    have h0 : ¬ laps.length = 0 := by omega
    have h1 : ¬ laps.length = 1 := by omega
    simp only [Shadow.synthesizeShadowLap, h0, h1, if_false, reduceIte]
    have hstep : (fun (sum : ℚ) s =>
        match Shadow.bestSectorLap laps s with
        | some (_, lap) => sum + lap.sectorTimes.getD s 0
        | none => sum)
      = fun (sum : ℚ) s => sum + (match Shadow.bestSectorLap laps s with
        | some (_, lap) => lap.sectorTimes.getD s 0
        | none => 0) := by
      funext sum s
      rcases Shadow.bestSectorLap laps s with _ | ⟨bt, bl⟩ <;> simp
    refine ⟨_, rfl, ?_, by simp, ?_⟩
    · simp only [hstep, foldl_add_map_sum, zero_add]
    · intro s hs l0 hl0 hpos
      have hget : ((List.range sectors.length).map (fun s =>
          match Shadow.bestSectorLap laps s with
          | some (_, lap) => lap.sectorTimes.getD s 0
          | none => 0)).getD s 0
          = (match Shadow.bestSectorLap laps s with
            | some (_, lap) => lap.sectorTimes.getD s 0
            | none => 0) := by
        rw [List.getD_eq_getElem?_getD, List.getElem?_map,
          List.getElem?_range hs]
        rfl
      rcases bestSectorLap_spec s laps with ⟨_, hall⟩ |
          ⟨bt, bl, pre, post, hsome, hsplit, hbt, hposbt, hmin, hstrict⟩
      · exact absurd hpos (not_lt.mpr (hall l0 hl0))
      · refine ⟨bl, pre, post, hsplit, hbt ▸ hposbt, ?_, ?_, ?_⟩
        · rw [hget, hsome]
        · intro l hl hlp
          exact hbt ▸ hmin l hl hlp
        · intro l hl hlp
          exact hbt ▸ hstrict l hl hlp
  · exact ⟨_, rfl, by with_unfolding_all decide, by with_unfolding_all decide⟩

/-- C2 witness: the general selection property instantiated at the two
concrete laps of the spec's example. -/
theorem c2_shadow_synthesis_witness :
    2 ≤ ([exLapA, exLapB] : List Shadow.LapRecord).length ∧
    (∃ sh, Shadow.synthesizeShadowLap exSectors 300 [exLapA, exLapB] =
        some sh ∧
      sh.lapTime = sh.sectorTimes.sum ∧
      sh.sectorTimes.length = exSectors.length ∧
      ∀ s, s < exSectors.length →
        ∀ l0 ∈ ([exLapA, exLapB] : List Shadow.LapRecord),
          0 < l0.sectorTimes.getD s 0 →
          ∃ bl pre post,
            ([exLapA, exLapB] : List Shadow.LapRecord) = pre ++ bl :: post ∧
            0 < bl.sectorTimes.getD s 0 ∧
            sh.sectorTimes.getD s 0 = bl.sectorTimes.getD s 0 ∧
            (∀ l ∈ ([exLapA, exLapB] : List Shadow.LapRecord),
              0 < l.sectorTimes.getD s 0 →
              bl.sectorTimes.getD s 0 ≤ l.sectorTimes.getD s 0) ∧
            (∀ l ∈ pre, 0 < l.sectorTimes.getD s 0 →
              bl.sectorTimes.getD s 0 < l.sectorTimes.getD s 0)) :=
  ⟨by simp, c2_shadow_synthesis.1 exSectors 300 [exLapA, exLapB] (by simp)⟩

/-! ### Claim C5: frame sequence numbers -/

/-- Helper: `deriveGForces` only touches the rolling window, never the
sequence counter. -/
theorem deriveGForces_state (st : Telemetry.NormState)
    (t lat lon speed heading : JNum) :
    (Telemetry.deriveGForces st t lat lon speed heading).1.frameSequence =
      st.frameSequence := by
  simp only [Telemetry.deriveGForces]
  split
  · rfl
  · split
    · rfl
    · rfl

theorem fromGPSD_seq (dp strNum : String → JNum) (now : ℚ)
    (st : Telemetry.NormState) (msg : Telemetry.JVal) :
    (∀ f, (Telemetry.fromGPSD dp strNum now st msg).2 = some f →
      f.seq = st.frameSequence + 1 ∧
      (Telemetry.fromGPSD dp strNum now st msg).1.frameSequence =
        st.frameSequence + 1) ∧
    ((Telemetry.fromGPSD dp strNum now st msg).2 = none →
      (Telemetry.fromGPSD dp strNum now st msg).1.frameSequence =
        st.frameSequence) := by
  simp only [Telemetry.fromGPSD]
  split
  · exact ⟨fun f hf => by simp at hf, fun _ => rfl⟩
  · constructor
    · intro f hf
      simp only [Option.some_inj] at hf
      subst hf
      exact ⟨by simp [Telemetry.buildFrame, deriveGForces_state],
        by simp [Telemetry.buildFrame, deriveGForces_state]⟩
    · intro hn
      simp at hn

theorem fromDirectJSON_seq (now : ℚ) (st : Telemetry.NormState)
    (msg : Telemetry.JVal) :
    (∀ f, (Telemetry.fromDirectJSON now st msg).2 = some f →
      f.seq = st.frameSequence + 1 ∧
      (Telemetry.fromDirectJSON now st msg).1.frameSequence =
        st.frameSequence + 1) ∧
    ((Telemetry.fromDirectJSON now st msg).2 = none →
      (Telemetry.fromDirectJSON now st msg).1.frameSequence =
        st.frameSequence) := by
  simp only [Telemetry.fromDirectJSON]
  split
  · exact ⟨fun f hf => by simp at hf, fun _ => rfl⟩
  · constructor
    · intro f hf
      simp only [Option.some_inj] at hf
      subst hf
      constructor
      · split
        · simp [Telemetry.buildFrame]
        · simp [Telemetry.buildFrame, deriveGForces_state]
      · split
        · simp [Telemetry.buildFrame]
        · simp [Telemetry.buildFrame, deriveGForces_state]
    · intro hn
      simp at hn

theorem fromVBOXJSON_seq (now : ℚ) (st : Telemetry.NormState)
    (msg : Telemetry.JVal) :
    (∀ f, (Telemetry.fromVBOXJSON now st msg).2 = some f →
      f.seq = st.frameSequence + 1 ∧
      (Telemetry.fromVBOXJSON now st msg).1.frameSequence =
        st.frameSequence + 1) ∧
    ((Telemetry.fromVBOXJSON now st msg).2 = none →
      (Telemetry.fromVBOXJSON now st msg).1.frameSequence =
        st.frameSequence) := by
  simp only [Telemetry.fromVBOXJSON]
  constructor
  · intro f hf
    simp only [Option.some_inj] at hf
    subst hf
    exact ⟨by simp [Telemetry.buildFrame], by simp [Telemetry.buildFrame]⟩
  · intro hn
    simp at hn

theorem parseCSV_seq (st : Telemetry.NormState) (fields : List JNum) :
    (∀ f, (Telemetry.parseCSV st fields).2 = some f →
      f.seq = st.frameSequence + 1 ∧
      (Telemetry.parseCSV st fields).1.frameSequence =
        st.frameSequence + 1) ∧
    ((Telemetry.parseCSV st fields).2 = none →
      (Telemetry.parseCSV st fields).1.frameSequence =
        st.frameSequence) := by
  simp only [Telemetry.parseCSV]
  split
  · exact ⟨fun f hf => by simp at hf, fun _ => rfl⟩
  · split
    · exact ⟨fun f hf => by simp at hf, fun _ => rfl⟩
    · split
      · exact ⟨fun f hf => by simp at hf, fun _ => rfl⟩
      · constructor
        · intro f hf
          simp only [Option.some_inj] at hf
          subst hf
          exact ⟨by simp [Telemetry.buildFrame, deriveGForces_state],
            by simp [Telemetry.buildFrame, deriveGForces_state]⟩
        · intro hn
          simp at hn

/-- C5.  Within one connection lifetime, every successfully decoded frame
carries a sequence number exactly one greater than the previous
successfully decoded frame's (the counter always equals the last issued
sequence number, so the sequence is strictly increasing), and an input
that decodes to `null` leaves the counter unchanged. -/
theorem c5_sequence_numbers (dp strNum : String → JNum) (now : ℚ)
    (st : Telemetry.NormState) (raw : Telemetry.RawInput) :
    (∀ f, (Telemetry.ingest dp strNum now st raw).2 = some f →
      f.seq = st.frameSequence + 1 ∧
      (Telemetry.ingest dp strNum now st raw).1.frameSequence =
        st.frameSequence + 1) ∧
    ((Telemetry.ingest dp strNum now st raw).2 = none →
      (Telemetry.ingest dp strNum now st raw).1.frameSequence =
        st.frameSequence) := by
  cases raw with
  | json v =>
    simp only [Telemetry.ingest, Telemetry.parseMessage]
    split
    · exact fromGPSD_seq dp strNum now st v
    · split
      · exact fromDirectJSON_seq now st v
      · split
        · exact fromVBOXJSON_seq now st v
        · exact ⟨fun f hf => by simp at hf, fun _ => rfl⟩
  | csvLine fields =>
    exact parseCSV_seq st fields

/-- C5 witness: decoding the flat message `exDirect` from a fresh
normalizer issues sequence number 1 and advances the counter to 1. -/
theorem c5_sequence_numbers_witness :
    exFrameDirect.seq = (0 : Nat) + 1 ∧
    (Telemetry.ingest dpNan strNumNan 0 ⟨0, []⟩
        (.json exDirect)).1.frameSequence = (0 : Nat) + 1 :=
  (c5_sequence_numbers dpNan strNumNan 0 ⟨0, []⟩ (.json exDirect)).1
    exFrameDirect (by with_unfolding_all decide)

/-! ### Claim C8: the TPV fix-mode gate -/

/-- Helper: the JS comparison `m < c` on a number-or-`NaN` holds exactly
for finite values below `c`. -/
theorem jlt_val_iff (m : JNum) (c : ℚ) :
    JNum.jlt m (JNum.val c) = true ↔ ∃ q, m = JNum.val q ∧ q < c := by
  cases m with
  | nan => simp [JNum.jlt]
  | val a => simp [JNum.jlt]

/-- C8 (amended).  A TPV message yields `null` exactly when its `mode`
field's JS numeric coercion (`ToNumber`, which also coerces numeric
strings such as `"1"`) is a number strictly below 2; a missing mode, or
one coercing to `NaN`, does not compare below 2 under JS semantics, so
such messages are *not* rejected — a frame is produced. -/
theorem c8_tpv_mode_gate (dp strNum : String → JNum) (now : ℚ)
    (st : Telemetry.NormState) (v : Telemetry.JVal)
    (htpv : Telemetry.isStrEq (v.get "class") "TPV" = true) :
    ((Telemetry.ingest dp strNum now st (.json v)).2 = none ↔
      ∃ q, Telemetry.toNumber strNum (v.get "mode") = JNum.val q ∧ q < 2) := by
  have h2 : (2 : JNum) = JNum.val 2 := rfl
  simp only [Telemetry.ingest, Telemetry.parseMessage, htpv, if_true,
    Telemetry.fromGPSD]
  rw [h2]
  split
  · simp only [true_iff]
    exact (jlt_val_iff _ 2).mp (by assumption)
  · constructor
    · intro hn
      simp at hn
    · intro hex
      exact absurd ((jlt_val_iff _ 2).mpr hex) (by simp_all)

/-! ### Claim C4: normalizer rejection behavior -/

/-- Helper: a field passing the `typeof === 'number'` test is a number
value (possibly `NaN`). -/
theorem isNumberV_iff (x : Option Telemetry.JVal) :
    Telemetry.isNumberV x = true ↔
      ∃ n, x = some (Telemetry.JVal.num n) := by
  cases x with
  | none => simp [Telemetry.isNumberV]
  | some v => cases v <;> simp [Telemetry.isNumberV]

/-- Helper: a `??` chain whose first field is a present number yields that
number. -/
theorem coalesceNum_cons_num (n : JNum) (x : Option Telemetry.JVal)
    (rest : List (Option Telemetry.JVal)) (dflt : JNum)
    (hx : x = some (.num n)) :
    Telemetry.coalesceNum (x :: rest) dflt = n := by
  subst hx
  rfl

/-- C4 (amended).  Inputs matching none of the decoder shapes yield
`null` with the normalizer state untouched, as do CSV lines that are short
or carry an unparseable time or `NaN` coordinates, and flat-JSON messages
whose (present, numeric) coordinates are `NaN`.  The GPS-daemon path
(whenever its mode gate — the JS-coercing comparison `mode < 2` — does not
fire) and the nested-JSON path, however, perform no coordinate validation
at all and always produce a frame, even with `NaN` coordinates. -/
theorem c4_normalizer_rejections :
    (∀ (dp strNum : String → JNum) (now : ℚ) (st : Telemetry.NormState)
        (v : Telemetry.JVal),
      Telemetry.isStrEq (v.get "class") "TPV" = false →
      (Telemetry.isNumberV (v.get "lat") &&
        Telemetry.isNumberV (v.get "lon")) = false →
      Telemetry.isObjectV (v.get "gps") = false →
      Telemetry.ingest dp strNum now st (.json v) = (st, none)) ∧
    (∀ (dp strNum : String → JNum) (now : ℚ) (st : Telemetry.NormState)
        (fields : List JNum),
      (fields.length < 8 ∨ fields.getD 0 .nan = .nan ∨
        fields.getD 1 .nan = .nan ∨ fields.getD 2 .nan = .nan) →
      Telemetry.ingest dp strNum now st (.csvLine fields) = (st, none)) ∧
    (∀ (dp strNum : String → JNum) (now : ℚ) (st : Telemetry.NormState)
        (v : Telemetry.JVal),
      Telemetry.isStrEq (v.get "class") "TPV" = false →
      (Telemetry.isNumberV (v.get "lat") &&
        Telemetry.isNumberV (v.get "lon")) = true →
      (Telemetry.asNum (v.get "lat") = .nan ∨
        Telemetry.asNum (v.get "lon") = .nan) →
      Telemetry.ingest dp strNum now st (.json v) = (st, none)) ∧
    (∀ (dp strNum : String → JNum) (now : ℚ) (st : Telemetry.NormState)
        (v : Telemetry.JVal),
      Telemetry.isStrEq (v.get "class") "TPV" = true →
      JNum.jlt (Telemetry.toNumber strNum (v.get "mode")) 2 = false →
      (Telemetry.ingest dp strNum now st (.json v)).2.isSome = true) ∧
    (∀ (dp strNum : String → JNum) (now : ℚ) (st : Telemetry.NormState)
        (v : Telemetry.JVal),
      Telemetry.isStrEq (v.get "class") "TPV" = false →
      (Telemetry.isNumberV (v.get "lat") &&
        Telemetry.isNumberV (v.get "lon")) = false →
      Telemetry.isObjectV (v.get "gps") = true →
      (Telemetry.ingest dp strNum now st (.json v)).2.isSome = true) := by
  refine ⟨?_, ?_, ?_, ?_, ?_⟩
  · intro dp strNum now st v h1 h2 h3
    simp [Telemetry.ingest, Telemetry.parseMessage, h1, h2, h3]
  · intro dp strNum now st fields h
    simp only [Telemetry.ingest, Telemetry.parseCSV]
    rcases h with h | h | h | h
    · rw [if_pos h]
    · rcases Nat.lt_or_ge fields.length 8 with hl | hl
      · rw [if_pos hl]
      · rw [if_neg (not_lt.mpr hl), if_pos h]
    · rcases Nat.lt_or_ge fields.length 8 with hl | hl
      · rw [if_pos hl]
      · rw [if_neg (not_lt.mpr hl)]
        by_cases ht : fields.getD 0 JNum.nan = JNum.nan
        · rw [if_pos ht]
        · rw [if_neg ht, if_pos (Or.inl h)]
    · rcases Nat.lt_or_ge fields.length 8 with hl | hl
      · rw [if_pos hl]
      · rw [if_neg (not_lt.mpr hl)]
        by_cases ht : fields.getD 0 JNum.nan = JNum.nan
        · rw [if_pos ht]
        · rw [if_neg ht, if_pos (Or.inr h)]
  · intro dp strNum now st v h1 h2 hnan
    simp only [Bool.and_eq_true] at h2
    obtain ⟨nlat, hlat⟩ := (isNumberV_iff _).mp h2.1
    obtain ⟨nlon, hlon⟩ := (isNumberV_iff _).mp h2.2
    have hc1 : Telemetry.coalesceNum [v.get "lat", v.get "latitude"] .nan =
        nlat := coalesceNum_cons_num nlat _ _ _ hlat
    have hc2 : Telemetry.coalesceNum [v.get "lon", v.get "longitude"] .nan =
        nlon := coalesceNum_cons_num nlon _ _ _ hlon
    have hnan2 : nlat = JNum.nan ∨ nlon = JNum.nan := by
      rcases hnan with h | h
      · left
        rw [hlat] at h
        exact h
      · right
        rw [hlon] at h
        exact h
    simp only [Telemetry.ingest, Telemetry.parseMessage, h1,
      Bool.false_eq_true, if_false, Bool.and_eq_true, h2.1, h2.2, and_self,
      if_true, Telemetry.fromDirectJSON, hc1, hc2]
    rw [if_pos hnan2]
  · intro dp strNum now st v h1 hmode
    simp only [Telemetry.ingest, Telemetry.parseMessage, h1, if_true,
      Telemetry.fromGPSD, hmode, Bool.false_eq_true, if_false]
    rfl
  · intro dp strNum now st v h1 h2 h3
    simp only [Telemetry.ingest, Telemetry.parseMessage, h1, h2, h3,
      Bool.false_eq_true, if_false, if_true, Telemetry.fromVBOXJSON]
    rfl

/-! ### Claim C6: kinematics estimator guards and clamping -/

/-- Helper: a `JNum` numeral is the corresponding finite value. -/
@[simp] theorem jnum_ofNat (n : Nat) :
    (OfNat.ofNat n : JNum) = JNum.val n := rfl

@[simp] theorem val_add (a b : ℚ) :
    JNum.val a + JNum.val b = JNum.val (a + b) := rfl

@[simp] theorem val_sub (a b : ℚ) :
    JNum.val a - JNum.val b = JNum.val (a - b) := rfl

@[simp] theorem val_mul (a b : ℚ) :
    JNum.val a * JNum.val b = JNum.val (a * b) := rfl

@[simp] theorem val_div (a b : ℚ) :
    JNum.val a / JNum.val b = JNum.val (a / b) := rfl

@[simp] theorem jle_val (a b : ℚ) :
    JNum.jle (JNum.val a) (JNum.val b) = decide (a ≤ b) := rfl

@[simp] theorem jlt_val (a b : ℚ) :
    JNum.jlt (JNum.val a) (JNum.val b) = decide (a < b) := rfl

@[simp] theorem normalizeAngleJ_val (a : ℚ) :
    Telemetry.normalizeAngleJ (JNum.val a) =
      JNum.val (Telemetry.normalizeAngleQ a) := rfl

@[simp] theorem clampG_val (x : ℚ) :
    Telemetry.clampG (JNum.val x) = JNum.val (max (-3) (min 3 x)) := rfl

/-- C6 (amended).  The estimator returns exactly `(0, 0)` with fewer than
3 buffered samples, and whenever the elapsed time between the newest and
the two-back sample is a number that is non-positive or exceeds 2 s; when
that elapsed time is a number in `(0, 2]` and the two samples' speeds and
headings are numbers, both outputs are numbers clamped into `[-3, 3]`.  A
`NaN` sample field, however, slips past the guard (no NaN comparison
holds) and propagates `NaN` through the clamp to the outputs. -/
theorem c6_kinematics_guards :
    (∀ (st : Telemetry.NormState) (t lat lon speed heading : JNum),
      (Telemetry.pushSample st.positionHistory
          ⟨t, lat, lon, speed, heading⟩).length < 3 →
      (Telemetry.deriveGForces st t lat lon speed heading).2 = (0, 0)) ∧
    (∀ (st : Telemetry.NormState) (t lat lon speed heading : JNum) (q : ℚ),
      Telemetry.elapsedOf (Telemetry.pushSample st.positionHistory
          ⟨t, lat, lon, speed, heading⟩) = JNum.val q →
      q ≤ 0 ∨ 2 < q →
      (Telemetry.deriveGForces st t lat lon speed heading).2 = (0, 0)) ∧
    (∀ (st : Telemetry.NormState) (t lat lon speed heading : JNum)
        (q sc sp hc hp : ℚ),
      Telemetry.elapsedOf (Telemetry.pushSample st.positionHistory
          ⟨t, lat, lon, speed, heading⟩) = JNum.val q →
      0 < q → q ≤ 2 →
      (Telemetry.histCurr (Telemetry.pushSample st.positionHistory
          ⟨t, lat, lon, speed, heading⟩)).speed = JNum.val sc →
      (Telemetry.histPrev (Telemetry.pushSample st.positionHistory
          ⟨t, lat, lon, speed, heading⟩)).speed = JNum.val sp →
      (Telemetry.histCurr (Telemetry.pushSample st.positionHistory
          ⟨t, lat, lon, speed, heading⟩)).heading = JNum.val hc →
      (Telemetry.histPrev (Telemetry.pushSample st.positionHistory
          ⟨t, lat, lon, speed, heading⟩)).heading = JNum.val hp →
      ∃ a b : ℚ, (Telemetry.deriveGForces st t lat lon speed heading).2 =
          (JNum.val a, JNum.val b) ∧
        -3 ≤ a ∧ a ≤ 3 ∧ -3 ≤ b ∧ b ≤ 3) := by
  refine ⟨?_, ?_, ?_⟩
  · intro st t lat lon speed heading hlen
    simp only [Telemetry.deriveGForces]
    rw [if_pos hlen]
  · intro st t lat lon speed heading q hq hor
    simp only [Telemetry.deriveGForces]
    by_cases hlen : (Telemetry.pushSample st.positionHistory
        ⟨t, lat, lon, speed, heading⟩).length < 3
    · rw [if_pos hlen]
    · rw [if_neg hlen, if_pos ?_]
      rw [hq]
      rcases hor with h | h
      · simp [h]
      · simp [h]
  · intro st t lat lon speed heading q sc sp hc hp hq h0 h2 hsc hsp hhc hhp
    simp only [Telemetry.deriveGForces]
    by_cases hlen : (Telemetry.pushSample st.positionHistory
        ⟨t, lat, lon, speed, heading⟩).length < 3
    · rw [if_pos hlen]
      exact ⟨0, 0, rfl, by norm_num⟩
    · rw [if_neg hlen, if_neg ?_]
      · rw [hq, hsc, hsp, hhc, hhp]
        simp only [jnum_ofNat, val_sub, val_add, val_mul, val_div, jle_val,
          jlt_val, normalizeAngleJ_val, clampG_val]
        refine ⟨_, _, rfl, le_max_left _ _, ?_, le_max_left _ _, ?_⟩
        · exact max_le (by norm_num) (min_le_left _ _)
        · exact max_le (by norm_num) (min_le_left _ _)
      · rw [hq]
        simp only [jnum_ofNat, jle_val, jlt_val, Bool.or_eq_true,
          decide_eq_true_eq]
        push_neg
        constructor
        · simpa using h0
        · simpa using h2

/-- C6 counterexample.  Three buffered samples with a legitimate 0.2 s
elapsed time but a `NaN` speed on the newest sample (reachable, e.g., via
a CSV line whose speed token fails `parseFloat`): the guard does not fire,
and both outputs are `NaN`, which does not lie within `[-3, 3]`. -/
theorem c6_kinematics_guards_cex :
    ¬ (Telemetry.pushSample stC6.positionHistory
        ⟨.val 200, .val 0, .val 0, .nan, .val 90⟩).length < 3 ∧
    Telemetry.elapsedOf (Telemetry.pushSample stC6.positionHistory
        ⟨.val 200, .val 0, .val 0, .nan, .val 90⟩) = .val (1 / 5) ∧
    ¬ ((1 : ℚ) / 5 ≤ 0 ∨ 2 < (1 : ℚ) / 5) ∧
    (Telemetry.deriveGForces stC6 (.val 200) (.val 0) (.val 0) .nan
        (.val 90)).2 = (.nan, .nan) ∧
    ¬ JNum.isReal (Telemetry.deriveGForces stC6 (.val 200) (.val 0) (.val 0)
        .nan (.val 90)).2.1 ∧
    ¬ JNum.isReal (Telemetry.deriveGForces stC6 (.val 200) (.val 0) (.val 0)
        .nan (.val 90)).2.2 := by
  refine ⟨?_, ?_, ?_, ?_, ?_, ?_⟩ <;> with_unfolding_all decide

/-- C6 witness: the clamped-bounds case at a concrete real sample. -/
theorem c6_kinematics_guards_witness :
    ∃ a b : ℚ, (Telemetry.deriveGForces stC6 (.val 200) (.val 0) (.val 0)
        (.val 120) (.val 100)).2 = (JNum.val a, JNum.val b) ∧
      -3 ≤ a ∧ a ≤ 3 ∧ -3 ≤ b ∧ b ≤ 3 :=
  c6_kinematics_guards.2.2 stC6 (.val 200) (.val 0) (.val 0) (.val 120) (.val 100)
    (1 / 5) 120 100 100 90
    (by with_unfolding_all decide) (by norm_num) (by norm_num)
    (by with_unfolding_all decide) (by with_unfolding_all decide)
    (by with_unfolding_all decide) (by with_unfolding_all decide)

/-- C8 counterexample.  A TPV message with no `mode` field at all is not
rejected: a frame is produced, where the claim demands `null`. -/
theorem c8_tpv_mode_gate_cex :
    Telemetry.isStrEq (exTPVNoMode.get "class") "TPV" = true ∧
    (exTPVNoMode.get "mode").isNone = true ∧
    (Telemetry.ingest dpNan strNumNan 0 ⟨0, []⟩
        (.json exTPVNoMode)).2.isSome = true := by
  refine ⟨rfl, rfl, ?_⟩
  with_unfolding_all decide

/-- C8 witness: the gate instantiated at a TPV message with numeric mode
3 (accepted) and at one whose mode is the string `"1"` (coerced and
rejected). -/
theorem c8_tpv_mode_gate_witness :
    ((Telemetry.ingest dpNan strNumNan 0 ⟨0, []⟩ (.json exTPVNaN)).2 = none ↔
      ∃ q, Telemetry.toNumber strNumNan (exTPVNaN.get "mode") = JNum.val q ∧
        q < 2) ∧
    ((Telemetry.ingest dpNan strNumOne 0 ⟨0, []⟩
        (.json exTPVStrMode)).2 = none ↔
      ∃ q, Telemetry.toNumber strNumOne (exTPVStrMode.get "mode") =
        JNum.val q ∧ q < 2) :=
  ⟨c8_tpv_mode_gate dpNan strNumNan 0 ⟨0, []⟩ exTPVNaN rfl,
   c8_tpv_mode_gate dpNan strNumOne 0 ⟨0, []⟩ exTPVStrMode rfl⟩

/-- C4 counterexample.  A TPV fix report with `mode` 3 and a `NaN`
latitude produces a frame, where the claim demands `null`. -/
theorem c4_normalizer_rejections_cex :
    Telemetry.isStrEq (exTPVNaN.get "class") "TPV" = true ∧
    Telemetry.asNum (exTPVNaN.get "lat") = JNum.nan ∧
    (Telemetry.ingest dpNan strNumNan 0 ⟨0, []⟩
        (.json exTPVNaN)).2.isSome = true := by
  refine ⟨rfl, rfl, ?_⟩
  with_unfolding_all decide

/-- C4 witness: a shapeless JSON object and a 3-token line are both
rejected with the state untouched. -/
theorem c4_normalizer_rejections_witness :
    Telemetry.ingest dpNan strNumNan 0 ⟨0, []⟩ (.json exNoShape) =
      (⟨0, []⟩, none) ∧
    Telemetry.ingest dpNan strNumNan 0 ⟨0, []⟩
        (.csvLine [.val 0, .val 1, .val 2]) = (⟨0, []⟩, none) :=
  ⟨c4_normalizer_rejections.1 dpNan strNumNan 0 ⟨0, []⟩ exNoShape rfl rfl rfl,
   c4_normalizer_rejections.2.1 dpNan strNumNan 0 ⟨0, []⟩
     [.val 0, .val 1, .val 2] (Or.inl (by decide))⟩
